import Mathlib

/-!
Verification development for the Storyline-Canvas repository.

The server side of the repository is embedded shallowly:

* `shared/schema.ts` entity records become Lean structures.  JavaScript
  `number` fields are modelled as `Int`: the server performs no arithmetic
  on them other than equality tests and the linked-segment order
  bookkeeping, which is integral.
* `server/storage.ts` (class `MemStorage`) keeps one insertion-ordered
  JavaScript `Map` per entity.  A `Map` is modelled as an association list
  `List (Nat × α)` in insertion order: `Map.set` replaces an existing key
  in place and appends a fresh key at the end, `Map.delete` removes the
  entry, `Map.values()` is the list of values.  The ids produced by
  `randomUUID()` are modelled by a freshness counter `nextId`; only
  freshness of the generated ids is used.
* `server/routes.ts` handlers become functions from the storage state and
  the parsed request to a response value plus the successor state.
  External vendor HTTP traffic (`server/providers.ts`) is abstracted by
  oracle arguments describing the vendor outcome of each call.
-/

/-! ## Association-list model of a JavaScript Map -/

/-- Insertion-ordered map from ids to records, as kept by `MemStorage`. -/
abbrev EntityMap (α : Type) : Type := List (Nat × α)

/-- Model of `Map.set`: replace the value at an existing key in place, otherwise
append the new entry at the end. -/
def mapSet {α : Type} (k : Nat) (v : α) : EntityMap α → EntityMap α
  | [] => [(k, v)]
  | (k', v') :: rest =>
      if k' = k then (k, v) :: rest else (k', v') :: mapSet k v rest

/-- Model of `Map.delete`: remove the entry with the given key; the `Bool` result is
whether an entry was removed. -/
def mapDelete {α : Type} (k : Nat) : EntityMap α → EntityMap α × Bool
  | [] => ([], false)
  | (k', v') :: rest =>
      if k' = k then (rest, true)
      else
        let r := mapDelete k rest
        ((k', v') :: r.1, r.2)

/-- Model of `Map.get`: the value stored at a key. -/
def mapGet {α : Type} (k : Nat) (l : EntityMap α) : Option α :=
  (l.find? (fun e => e.1 = k)).map (fun e => e.2)

/-- Model of `Map.values()` in insertion order. -/
def mapValues {α : Type} (l : EntityMap α) : List α :=
  l.map (fun e => e.2)

/-! ## Entity records (shared/schema.ts) -/

/-- Tile media kind, `"image" | "video"`. -/
inductive MediaType : Type
  | image
  | video
deriving DecidableEq, Repr

/-- Audio track kind, `"voice" | "music" | "sfx"`. -/
inductive AudioType : Type
  | voice
  | music
  | sfx
deriving DecidableEq, Repr

/-- Timeline record from `timelineSchema`. -/
structure Timeline : Type where
  id : Nat
  name : String
  isCollapsed : Bool
  order : Int
  height : Option Int
deriving DecidableEq, Repr

/-- Insert payload for a timeline (`InsertTimeline = Omit<Timeline, "id">`). -/
structure InsertTimeline : Type where
  name : String
  isCollapsed : Bool
  order : Int
  height : Option Int
deriving DecidableEq, Repr

/-- Tile record from `tileSchema`. -/
structure Tile : Type where
  id : Nat
  type : MediaType
  timelineId : Nat
  position : Int
  prompt : String
  provider : Option String
  model : Option String
  mediaUrl : Option String
  selectedFrame : Int
  isGenerating : Bool
  duration : Option Int
deriving DecidableEq, Repr

/-- Insert payload for a tile (`InsertTile = Omit<Tile, "id">`). -/
structure InsertTile : Type where
  type : MediaType
  timelineId : Nat
  position : Int
  prompt : String
  provider : Option String
  model : Option String
  mediaUrl : Option String
  selectedFrame : Int
  isGenerating : Bool
  duration : Option Int
deriving DecidableEq, Repr

/-- Tile link record from `tileLinkSchema`. -/
structure TileLink : Type where
  id : Nat
  tileId : Nat
  timelineId : Nat
  order : Int
deriving DecidableEq, Repr

/-- Insert payload for a tile link. -/
structure InsertTileLink : Type where
  tileId : Nat
  timelineId : Nat
  order : Int
deriving DecidableEq, Repr

/-- Linked segment record.  The current schema file is not present under
`src/`; the fields are the ones used by `MemStorage` and the client store:
id, timelineId, position and order (spec: timeline+position+order). -/
structure LinkedSegment : Type where
  id : Nat
  timelineId : Nat
  position : Int
  order : Int
deriving DecidableEq, Repr

/-- Insert payload for a linked segment: `createLinkedSegment` overwrites
any client-sent order, so only timelineId and position matter. -/
structure InsertLinkedSegment : Type where
  timelineId : Nat
  position : Int
deriving DecidableEq, Repr

/-- Audio track record from `audioTrackSchema`. -/
structure AudioTrack : Type where
  id : Nat
  name : String
  type : AudioType
  audioUrl : Option String
  startTime : Int
  duration : Int
  volume : Int
  isMuted : Bool
  isSolo : Bool
  fadeIn : Int
  fadeOut : Int
deriving DecidableEq, Repr

/-- Insert payload for an audio track. -/
structure InsertAudioTrack : Type where
  name : String
  type : AudioType
  audioUrl : Option String
  startTime : Int
  duration : Int
  volume : Int
  isMuted : Bool
  isSolo : Bool
  fadeIn : Int
  fadeOut : Int
deriving DecidableEq, Repr

/-- Audio clip record from `audioClipSchema`. -/
structure AudioClip : Type where
  id : Nat
  trackId : Nat
  name : String
  audioUrl : Option String
  startTime : Int
  duration : Int
  trimStart : Int
  trimEnd : Int
  prompt : Option String
  provider : Option String
deriving DecidableEq, Repr

/-- Insert payload for an audio clip. -/
structure InsertAudioClip : Type where
  trackId : Nat
  name : String
  audioUrl : Option String
  startTime : Int
  duration : Int
  trimStart : Int
  trimEnd : Int
  prompt : Option String
  provider : Option String
deriving DecidableEq, Repr

/-- API settings record from `apiSettingSchema`.  The provider is kept as a
plain string because the route layer compares it against provider names
outside the schema enumeration (for example `pollinations`). -/
structure APISetting : Type where
  id : Nat
  provider : String
  apiKey : String
  isConnected : Bool
deriving DecidableEq, Repr

/-- Insert payload for an API setting
(`InsertAPISetting = Omit<APISetting, "id" | "isConnected">`). -/
structure InsertAPISetting : Type where
  provider : String
  apiKey : String
deriving DecidableEq, Repr

/-! ## PATCH payloads

The REST PATCH handlers forward `req.body` as `Partial<T>` merged with the
spread operator.  A patch is modelled with one `Option` per field: `none`
means the key is absent from the body. -/

/-- Partial timeline update. -/
structure TimelinePatch : Type where
  id : Option Nat
  name : Option String
  isCollapsed : Option Bool
  order : Option Int
  height : Option (Option Int)
deriving DecidableEq, Repr

/-- Merge `{...existing, ...updates}` for a timeline. -/
def mergeTimeline (t : Timeline) (p : TimelinePatch) : Timeline :=
  { id := p.id.getD t.id
    name := p.name.getD t.name
    isCollapsed := p.isCollapsed.getD t.isCollapsed
    order := p.order.getD t.order
    height := p.height.getD t.height }

/-- Partial tile update. -/
structure TilePatch : Type where
  id : Option Nat
  type : Option MediaType
  timelineId : Option Nat
  position : Option Int
  prompt : Option String
  provider : Option (Option String)
  model : Option (Option String)
  mediaUrl : Option (Option String)
  selectedFrame : Option Int
  isGenerating : Option Bool
  duration : Option (Option Int)
deriving DecidableEq, Repr

/-- Merge `{...existing, ...updates}` for a tile. -/
def mergeTile (t : Tile) (p : TilePatch) : Tile :=
  { id := p.id.getD t.id
    type := p.type.getD t.type
    timelineId := p.timelineId.getD t.timelineId
    position := p.position.getD t.position
    prompt := p.prompt.getD t.prompt
    provider := p.provider.getD t.provider
    model := p.model.getD t.model
    mediaUrl := p.mediaUrl.getD t.mediaUrl
    selectedFrame := p.selectedFrame.getD t.selectedFrame
    isGenerating := p.isGenerating.getD t.isGenerating
    duration := p.duration.getD t.duration }

/-- Partial audio track update. -/
structure AudioTrackPatch : Type where
  id : Option Nat
  name : Option String
  type : Option AudioType
  audioUrl : Option (Option String)
  startTime : Option Int
  duration : Option Int
  volume : Option Int
  isMuted : Option Bool
  isSolo : Option Bool
  fadeIn : Option Int
  fadeOut : Option Int
deriving DecidableEq, Repr

/-- Merge `{...existing, ...updates}` for an audio track. -/
def mergeAudioTrack (t : AudioTrack) (p : AudioTrackPatch) : AudioTrack :=
  { id := p.id.getD t.id
    name := p.name.getD t.name
    type := p.type.getD t.type
    audioUrl := p.audioUrl.getD t.audioUrl
    startTime := p.startTime.getD t.startTime
    duration := p.duration.getD t.duration
    volume := p.volume.getD t.volume
    isMuted := p.isMuted.getD t.isMuted
    isSolo := p.isSolo.getD t.isSolo
    fadeIn := p.fadeIn.getD t.fadeIn
    fadeOut := p.fadeOut.getD t.fadeOut }

/-- Partial audio clip update. -/
structure AudioClipPatch : Type where
  id : Option Nat
  trackId : Option Nat
  name : Option String
  audioUrl : Option (Option String)
  startTime : Option Int
  duration : Option Int
  trimStart : Option Int
  trimEnd : Option Int
  prompt : Option (Option String)
  provider : Option (Option String)
deriving DecidableEq, Repr

/-- Merge `{...existing, ...updates}` for an audio clip. -/
def mergeAudioClip (t : AudioClip) (p : AudioClipPatch) : AudioClip :=
  { id := p.id.getD t.id
    trackId := p.trackId.getD t.trackId
    name := p.name.getD t.name
    audioUrl := p.audioUrl.getD t.audioUrl
    startTime := p.startTime.getD t.startTime
    duration := p.duration.getD t.duration
    trimStart := p.trimStart.getD t.trimStart
    trimEnd := p.trimEnd.getD t.trimEnd
    prompt := p.prompt.getD t.prompt
    provider := p.provider.getD t.provider }

/-! ## The MemStorage state -/

/-- The in-memory store of `MemStorage`: one insertion-ordered map per
entity plus the freshness counter standing in for `randomUUID()`. -/
structure Storage : Type where
  timelines : EntityMap Timeline
  tiles : EntityMap Tile
  tileLinks : EntityMap TileLink
  linkedSegments : EntityMap LinkedSegment
  audioTracks : EntityMap AudioTrack
  audioClips : EntityMap AudioClip
  apiSettings : EntityMap APISetting
  nextId : Nat
deriving DecidableEq, Repr

/-- The store built by the `MemStorage` constructor: all maps empty. -/
def emptyStorage : Storage :=
  { timelines := []
    tiles := []
    tileLinks := []
    linkedSegments := []
    audioTracks := []
    audioClips := []
    apiSettings := []
    nextId := 0 }

/-! ## MemStorage operations (server/storage.ts)

Each mutating method becomes a function `... → result × Storage`; read-only
methods are plain functions of the store. -/

/-- Model of `getTimelines`. -/
def getTimelines (s : Storage) : List Timeline :=
  mapValues s.timelines

/-- Model of `getTimeline`. -/
def getTimeline (id : Nat) (s : Storage) : Option Timeline :=
  mapGet id s.timelines

/-- Model of `createTimeline`: build the record from the insert payload plus a fresh
id and store it under that id. -/
def createTimeline (ins : InsertTimeline) (s : Storage) : Timeline × Storage :=
  let id := s.nextId
  let t : Timeline :=
    { id := id
      name := ins.name
      isCollapsed := ins.isCollapsed
      order := ins.order
      height := ins.height }
  (t, { s with timelines := mapSet id t s.timelines, nextId := s.nextId + 1 })

/-- Model of `updateTimeline`: merge the patch into the existing record, or return
`none` leaving the store unchanged. -/
def updateTimeline (id : Nat) (p : TimelinePatch) (s : Storage) :
    Option Timeline × Storage :=
  match mapGet id s.timelines with
  | none => (none, s)
  | some t =>
      let t' := mergeTimeline t p
      (some t', { s with timelines := mapSet id t' s.timelines })

/-- Sort comparison used by `getTileLinks`, `getLinkedSegments` and
`reindexLinkedSegments`: the JavaScript comparator `(a, b) => a.order - b.order`
sorts ascending by order. -/
def segLE (a b : LinkedSegment) : Prop :=
  a.order ≤ b.order

instance : DecidableRel segLE :=
  fun a b => Int.decLe a.order b.order

instance : IsTotal LinkedSegment segLE :=
  ⟨fun a b => le_total a.order b.order⟩

instance : IsTrans LinkedSegment segLE :=
  ⟨fun _ _ _ hab hbc => le_trans hab hbc⟩

/-- Stable sort of the linked-segment values by order:
`Array.prototype.sort` is a stable comparison sort, modelled by a stable
structural sort. -/
def sortSegs (l : List LinkedSegment) : List LinkedSegment :=
  List.insertionSort segLE l

/-- Model of `reindexLinkedSegments`: walk the segments sorted by order and rewrite
each stored order to its index in that sorted sequence (skipping entries
already carrying their index, as the source does). -/
def reindexLinkedSegments (m : EntityMap LinkedSegment) : EntityMap LinkedSegment :=
  let sorted := sortSegs (mapValues m)
  sorted.enum.foldl
    (fun acc e =>
      if e.2.order = Int.ofNat e.1 then acc
      else mapSet e.2.id { e.2 with order := Int.ofNat e.1 } acc)
    m

/-- Model of `deleteTimeline`: cascade-delete the tiles, tile links and linked
segments whose `timelineId` matches, reindex the surviving segments, then
remove the timeline record itself. -/
def deleteTimeline (id : Nat) (s : Storage) : Bool × Storage :=
  let tilesToDelete := (mapValues s.tiles).filter (fun t => t.timelineId = id)
  let tiles' := tilesToDelete.foldl (fun acc t => (mapDelete t.id acc).1) s.tiles
  let linksToDelete := (mapValues s.tileLinks).filter (fun l => l.timelineId = id)
  let links' := linksToDelete.foldl (fun acc l => (mapDelete l.id acc).1) s.tileLinks
  let segsToDelete := (mapValues s.linkedSegments).filter (fun g => g.timelineId = id)
  let segs' := segsToDelete.foldl (fun acc g => (mapDelete g.id acc).1) s.linkedSegments
  let segs'' := reindexLinkedSegments segs'
  let d := mapDelete id s.timelines
  (d.2, { s with timelines := d.1, tiles := tiles', tileLinks := links',
                 linkedSegments := segs'' })

/-- Model of `getTiles`. -/
def getTiles (s : Storage) : List Tile :=
  mapValues s.tiles

/-- Model of `getTilesByTimeline`. -/
def getTilesByTimeline (timelineId : Nat) (s : Storage) : List Tile :=
  (mapValues s.tiles).filter (fun t => t.timelineId = timelineId)

/-- Model of `getTile`. -/
def getTile (id : Nat) (s : Storage) : Option Tile :=
  mapGet id s.tiles

/-- Model of `createTile`. -/
def createTile (ins : InsertTile) (s : Storage) : Tile × Storage :=
  let id := s.nextId
  let t : Tile :=
    { id := id
      type := ins.type
      timelineId := ins.timelineId
      position := ins.position
      prompt := ins.prompt
      provider := ins.provider
      model := ins.model
      mediaUrl := ins.mediaUrl
      selectedFrame := ins.selectedFrame
      isGenerating := ins.isGenerating
      duration := ins.duration }
  (t, { s with tiles := mapSet id t s.tiles, nextId := s.nextId + 1 })

/-- Model of `updateTile`. -/
def updateTile (id : Nat) (p : TilePatch) (s : Storage) : Option Tile × Storage :=
  match mapGet id s.tiles with
  | none => (none, s)
  | some t =>
      let t' := mergeTile t p
      (some t', { s with tiles := mapSet id t' s.tiles })

/-- Model of `deleteTile`: delete the tile links referencing the tile; when the tile
exists, delete the linked segments at its timeline/position and reindex;
finally remove the tile record. -/
def deleteTile (id : Nat) (s : Storage) : Bool × Storage :=
  let tile := mapGet id s.tiles
  let linksToDelete := (mapValues s.tileLinks).filter (fun l => l.tileId = id)
  let links' := linksToDelete.foldl (fun acc l => (mapDelete l.id acc).1) s.tileLinks
  let segs' :=
    match tile with
    | some t =>
        let segsToDelete := (mapValues s.linkedSegments).filter
          (fun g => g.timelineId = t.timelineId && g.position = t.position)
        let deleted := segsToDelete.foldl
          (fun acc g => (mapDelete g.id acc).1) s.linkedSegments
        reindexLinkedSegments deleted
    | none => s.linkedSegments
  let d := mapDelete id s.tiles
  (d.2, { s with tiles := d.1, tileLinks := links', linkedSegments := segs' })

/-- Model of `getTileLinks`: values sorted ascending by order. -/
def getTileLinks (s : Storage) : List TileLink :=
  List.insertionSort (fun a b : TileLink => a.order ≤ b.order)
    (mapValues s.tileLinks)

/-- Model of `getTileLink`. -/
def getTileLink (id : Nat) (s : Storage) : Option TileLink :=
  mapGet id s.tileLinks

/-- Model of `createTileLink`. -/
def createTileLink (ins : InsertTileLink) (s : Storage) : TileLink × Storage :=
  let id := s.nextId
  let l : TileLink :=
    { id := id, tileId := ins.tileId, timelineId := ins.timelineId, order := ins.order }
  (l, { s with tileLinks := mapSet id l s.tileLinks, nextId := s.nextId + 1 })

/-- Model of `deleteTileLink`. -/
def deleteTileLink (id : Nat) (s : Storage) : Bool × Storage :=
  let d := mapDelete id s.tileLinks
  (d.2, { s with tileLinks := d.1 })

/-- Model of `clearTileLinks`. -/
def clearTileLinks (s : Storage) : Bool × Storage :=
  (true, { s with tileLinks := [] })

/-- Model of `getLinkedSegments`: values sorted ascending by order. -/
def getLinkedSegments (s : Storage) : List LinkedSegment :=
  sortSegs (mapValues s.linkedSegments)

/-- Model of `getLinkedSegment`. -/
def getLinkedSegment (id : Nat) (s : Storage) : Option LinkedSegment :=
  mapGet id s.linkedSegments

/-- Maximum of a list of integers, used for `Math.max(...orders)`. -/
def intMax (l : List Int) : Int :=
  match l with
  | [] => 0
  | x :: rest => rest.foldl max x

/-- Model of `createLinkedSegment`: fresh id, order one past the maximum existing
order (or 0 for the first segment). -/
def createLinkedSegment (ins : InsertLinkedSegment) (s : Storage) :
    LinkedSegment × Storage :=
  let id := s.nextId
  let existing := mapValues s.linkedSegments
  let maxOrder : Int :=
    if existing.length > 0 then intMax (existing.map (fun g => g.order)) + 1 else 0
  let seg : LinkedSegment :=
    { id := id, timelineId := ins.timelineId, position := ins.position,
      order := maxOrder }
  (seg, { s with linkedSegments := mapSet id seg s.linkedSegments,
                 nextId := s.nextId + 1 })

/-- Model of `deleteLinkedSegment`: delete, then reindex unconditionally. -/
def deleteLinkedSegment (id : Nat) (s : Storage) : Bool × Storage :=
  let d := mapDelete id s.linkedSegments
  (d.2, { s with linkedSegments := reindexLinkedSegments d.1 })

/-- Model of `deleteLinkedSegmentByTimelinePosition`: find the first segment with the
given timeline and position; if present, delete it and reindex. -/
def deleteLinkedSegmentByTimelinePosition (timelineId : Nat) (position : Int)
    (s : Storage) : Bool × Storage :=
  match (mapValues s.linkedSegments).find?
      (fun g => g.timelineId = timelineId && g.position = position) with
  | some seg =>
      let d := mapDelete seg.id s.linkedSegments
      (d.2, { s with linkedSegments := reindexLinkedSegments d.1 })
  | none => (false, s)

/-- Model of `clearLinkedSegments`. -/
def clearLinkedSegments (s : Storage) : Bool × Storage :=
  (true, { s with linkedSegments := [] })

/-- Model of `getAudioTracks`. -/
def getAudioTracks (s : Storage) : List AudioTrack :=
  mapValues s.audioTracks

/-- Model of `getAudioTrack`. -/
def getAudioTrack (id : Nat) (s : Storage) : Option AudioTrack :=
  mapGet id s.audioTracks

/-- Model of `createAudioTrack`. -/
def createAudioTrack (ins : InsertAudioTrack) (s : Storage) : AudioTrack × Storage :=
  let id := s.nextId
  let t : AudioTrack :=
    { id := id
      name := ins.name
      type := ins.type
      audioUrl := ins.audioUrl
      startTime := ins.startTime
      duration := ins.duration
      volume := ins.volume
      isMuted := ins.isMuted
      isSolo := ins.isSolo
      fadeIn := ins.fadeIn
      fadeOut := ins.fadeOut }
  (t, { s with audioTracks := mapSet id t s.audioTracks, nextId := s.nextId + 1 })

/-- Model of `updateAudioTrack`. -/
def updateAudioTrack (id : Nat) (p : AudioTrackPatch) (s : Storage) :
    Option AudioTrack × Storage :=
  match mapGet id s.audioTracks with
  | none => (none, s)
  | some t =>
      let t' := mergeAudioTrack t p
      (some t', { s with audioTracks := mapSet id t' s.audioTracks })

/-- Model of `deleteAudioTrack`. -/
def deleteAudioTrack (id : Nat) (s : Storage) : Bool × Storage :=
  let d := mapDelete id s.audioTracks
  (d.2, { s with audioTracks := d.1 })

/-- Model of `getAudioClips`. -/
def getAudioClips (s : Storage) : List AudioClip :=
  mapValues s.audioClips

/-- Model of `getAudioClipsByTrack`. -/
def getAudioClipsByTrack (trackId : Nat) (s : Storage) : List AudioClip :=
  (mapValues s.audioClips).filter (fun c => c.trackId = trackId)

/-- Model of `getAudioClip`. -/
def getAudioClip (id : Nat) (s : Storage) : Option AudioClip :=
  mapGet id s.audioClips

/-- Model of `createAudioClip`. -/
def createAudioClip (ins : InsertAudioClip) (s : Storage) : AudioClip × Storage :=
  let id := s.nextId
  let c : AudioClip :=
    { id := id
      trackId := ins.trackId
      name := ins.name
      audioUrl := ins.audioUrl
      startTime := ins.startTime
      duration := ins.duration
      trimStart := ins.trimStart
      trimEnd := ins.trimEnd
      prompt := ins.prompt
      provider := ins.provider }
  (c, { s with audioClips := mapSet id c s.audioClips, nextId := s.nextId + 1 })

/-- Model of `updateAudioClip`. -/
def updateAudioClip (id : Nat) (p : AudioClipPatch) (s : Storage) :
    Option AudioClip × Storage :=
  match mapGet id s.audioClips with
  | none => (none, s)
  | some c =>
      let c' := mergeAudioClip c p
      (some c', { s with audioClips := mapSet id c' s.audioClips })

/-- Model of `deleteAudioClip`. -/
def deleteAudioClip (id : Nat) (s : Storage) : Bool × Storage :=
  let d := mapDelete id s.audioClips
  (d.2, { s with audioClips := d.1 })

/-- Model of `getApiSettings`. -/
def getApiSettings (s : Storage) : List APISetting :=
  mapValues s.apiSettings

/-- Model of `getApiSetting`: first setting with the given provider name. -/
def getApiSetting (provider : String) (s : Storage) : Option APISetting :=
  (mapValues s.apiSettings).find? (fun e => e.provider = provider)

/-- Model of `saveApiSetting`: update the record for the provider in place keeping
its id when one exists, otherwise create a fresh record; either way
`isConnected` is the truthiness of the submitted key. -/
def saveApiSetting (ins : InsertAPISetting) (s : Storage) : APISetting × Storage :=
  match (mapValues s.apiSettings).find? (fun e => e.provider = ins.provider) with
  | some existing =>
      let updated : APISetting :=
        { id := existing.id
          provider := ins.provider
          apiKey := ins.apiKey
          isConnected := ins.apiKey ≠ "" }
      (updated, { s with apiSettings := mapSet existing.id updated s.apiSettings })
  | none =>
      let id := s.nextId
      let setting : APISetting :=
        { id := id
          provider := ins.provider
          apiKey := ins.apiKey
          isConnected := ins.apiKey ≠ "" }
      (setting, { s with apiSettings := mapSet id setting s.apiSettings,
                         nextId := s.nextId + 1 })

/-- Model of `deleteApiSetting`: delete the record for a provider name, if any. -/
def deleteApiSetting (provider : String) (s : Storage) : Bool × Storage :=
  match (mapValues s.apiSettings).find? (fun e => e.provider = provider) with
  | some setting =>
      let d := mapDelete setting.id s.apiSettings
      (d.2, { s with apiSettings := d.1 })
  | none => (false, s)

/-! ## Reachable storage states

One constructor per mutating method of the `IStorage` interface implemented
by `MemStorage` in the source, starting from the store built by the
constructor. -/

/-- Storage states reachable from the empty store through the `MemStorage`
interface. -/
inductive Reachable : Storage → Prop
  | empty : Reachable emptyStorage
  | createTimeline (ins : InsertTimeline) {s : Storage} :
      Reachable s → Reachable (createTimeline ins s).2
  | updateTimeline (id : Nat) (p : TimelinePatch) {s : Storage} :
      Reachable s → Reachable (updateTimeline id p s).2
  | deleteTimeline (id : Nat) {s : Storage} :
      Reachable s → Reachable (deleteTimeline id s).2
  | createTile (ins : InsertTile) {s : Storage} :
      Reachable s → Reachable (createTile ins s).2
  | updateTile (id : Nat) (p : TilePatch) {s : Storage} :
      Reachable s → Reachable (updateTile id p s).2
  | deleteTile (id : Nat) {s : Storage} :
      Reachable s → Reachable (deleteTile id s).2
  | createTileLink (ins : InsertTileLink) {s : Storage} :
      Reachable s → Reachable (createTileLink ins s).2
  | deleteTileLink (id : Nat) {s : Storage} :
      Reachable s → Reachable (deleteTileLink id s).2
  | clearTileLinks {s : Storage} :
      Reachable s → Reachable (clearTileLinks s).2
  | createLinkedSegment (ins : InsertLinkedSegment) {s : Storage} :
      Reachable s → Reachable (createLinkedSegment ins s).2
  | deleteLinkedSegment (id : Nat) {s : Storage} :
      Reachable s → Reachable (deleteLinkedSegment id s).2
  | deleteLinkedSegmentByTimelinePosition (timelineId : Nat) (position : Int)
      {s : Storage} :
      Reachable s →
      Reachable (deleteLinkedSegmentByTimelinePosition timelineId position s).2
  | clearLinkedSegments {s : Storage} :
      Reachable s → Reachable (clearLinkedSegments s).2
  | createAudioTrack (ins : InsertAudioTrack) {s : Storage} :
      Reachable s → Reachable (createAudioTrack ins s).2
  | updateAudioTrack (id : Nat) (p : AudioTrackPatch) {s : Storage} :
      Reachable s → Reachable (updateAudioTrack id p s).2
  | deleteAudioTrack (id : Nat) {s : Storage} :
      Reachable s → Reachable (deleteAudioTrack id s).2
  | createAudioClip (ins : InsertAudioClip) {s : Storage} :
      Reachable s → Reachable (createAudioClip ins s).2
  | updateAudioClip (id : Nat) (p : AudioClipPatch) {s : Storage} :
      Reachable s → Reachable (updateAudioClip id p s).2
  | deleteAudioClip (id : Nat) {s : Storage} :
      Reachable s → Reachable (deleteAudioClip id s).2
  | saveApiSetting (ins : InsertAPISetting) {s : Storage} :
      Reachable s → Reachable (saveApiSetting ins s).2
  | deleteApiSetting (provider : String) {s : Storage} :
      Reachable s → Reachable (deleteApiSetting provider s).2

/-! ## Provider layer (server/providers.ts)

The vendor HTTP traffic is external, so each call site is abstracted by an
oracle value describing the outcome of the one request the arm makes. -/

/-- Result of `generateImage` / `generateVideo`. -/
structure GenerationResult : Type where
  success : Bool
  mediaUrl : Option String
  error : Option String
  jobId : Option String
deriving DecidableEq, Repr

/-- Result of a `checkJobStatus` call: the `status` string is one of the
literals of the TypeScript union. -/
structure JobStatus : Type where
  status : String
  mediaUrl : Option String
  error : Option String
  progress : Option Int
deriving DecidableEq, Repr

/-- Outcome of the single vendor status request an arm of `checkJobStatus`
performs: whether the fetch threw, `response.ok`, and the JSON fields each
arm reads. -/
structure VendorStatusResp : Type where
  threw : Bool
  ok : Bool
  statusField : String
  stateField : String
  doneField : Bool
  errField : Option String
  taskStatus : String
  taskMsg : Option String
  outputUrl : Option String
  failureMsg : Option String
  progress : Option Int
deriving DecidableEq, Repr

/-- Status returned by the catch handler around a vendor status call. -/
def statusCatch : JobStatus :=
  { status := "failed", mediaUrl := none,
    error := some ("Status check failed"), progress := none }

/-- Model of `checkJobStatus`: dispatch on the provider, make one status request and
fold the vendor-specific states into the four-value union. -/
def checkJobStatus (provider : String) (_jobId : String) (apiKey : String)
    (r : VendorStatusResp) : JobStatus :=
  if apiKey = "" then
    { status := "failed", mediaUrl := none, error := some ("No API key"),
      progress := none }
  else if provider = "runway" then
    if r.threw then statusCatch
    else if !r.ok then
      { status := "failed", mediaUrl := none,
        error := some ("Failed to check status"), progress := none }
    else if r.statusField = "SUCCEEDED" then
      { status := "completed", mediaUrl := r.outputUrl, error := none,
        progress := none }
    else if r.statusField = "FAILED" then
      { status := "failed", mediaUrl := none,
        error := some (r.failureMsg.getD ("Generation failed")), progress := none }
    else
      { status := "processing", mediaUrl := none, error := none,
        progress := r.progress }
  else if provider = "flux" ∨ provider = "replicate" then
    if r.threw then statusCatch
    else if !r.ok then
      { status := "failed", mediaUrl := none,
        error := some ("Failed to check status"), progress := none }
    else if r.statusField = "succeeded" then
      { status := "completed", mediaUrl := r.outputUrl, error := none,
        progress := none }
    else if r.statusField = "failed" then
      { status := "failed", mediaUrl := none,
        error := some (r.failureMsg.getD ("Generation failed")), progress := none }
    else
      { status := "processing", mediaUrl := none, error := none, progress := none }
  else if provider = "luma" then
    if r.threw then statusCatch
    else if !r.ok then
      { status := "failed", mediaUrl := none,
        error := some ("Failed to check status"), progress := none }
    else if r.stateField = "completed" then
      { status := "completed", mediaUrl := r.outputUrl, error := none,
        progress := none }
    else if r.stateField = "failed" then
      { status := "failed", mediaUrl := none,
        error := some (r.failureMsg.getD ("Generation failed")), progress := none }
    else
      { status := "processing", mediaUrl := none, error := none, progress := none }
  else if provider = "veo" then
    if r.threw then statusCatch
    else if !r.ok then
      { status := "failed", mediaUrl := none,
        error := some ("Failed to check Veo status"), progress := none }
    else if r.doneField then
      match r.errField with
      | some m =>
          { status := "failed", mediaUrl := none, error := some m, progress := none }
      | none =>
          match r.outputUrl with
          | some u =>
              { status := "completed", mediaUrl := some u, error := none,
                progress := none }
          | none =>
              { status := "failed", mediaUrl := none,
                error := some ("No video in Veo response"), progress := none }
    else
      { status := "processing", mediaUrl := none, error := none,
        progress := r.progress }
  else if provider = "kling" then
    if r.threw then statusCatch
    else if !r.ok then
      { status := "failed", mediaUrl := none,
        error := some ("Failed to check Kling status"), progress := none }
    else if r.taskStatus = "succeed" then
      { status := "completed", mediaUrl := r.outputUrl, error := none,
        progress := none }
    else if r.taskStatus = "failed" then
      { status := "failed", mediaUrl := none,
        error := some (r.taskMsg.getD ("Kling generation failed")), progress := none }
    else
      { status := "processing", mediaUrl := none, error := none, progress := none }
  else
    { status := "failed", mediaUrl := none, error := some ("Unknown provider"),
      progress := none }

/-- Outcome of the single request made by an arm of `validateApiKey`. -/
structure ValidationResp : Type where
  threw : Bool
  status : Nat
deriving DecidableEq, Repr

/-- Model of `response.ok` for a modelled HTTP status. -/
def respOk (r : ValidationResp) : Bool :=
  200 ≤ r.status && r.status ≤ 299

/-- Result of `validateApiKey`. -/
structure ValidationResult : Type where
  valid : Bool
  error : Option String
deriving DecidableEq, Repr

/-- Providers validated only by key length in `validateApiKey`. -/
def basicValidationProviders : List String :=
  ["hunyuan", "firefly", "bria", "pollinations", "runware", "veo", "kling",
   "pika", "luma", "tavus", "mootion", "akool", "mirage", "pictory"]

/-- Model of `validateApiKey`: one vendor request (or a length check) per provider. -/
def validateApiKey (provider : String) (apiKey : String) (r : ValidationResp) :
    ValidationResult :=
  if basicValidationProviders.contains provider then
    if apiKey.length ≥ 10 then { valid := true, error := none }
    else { valid := false, error := some ("API key too short") }
  else if r.threw then
    { valid := false, error := some ("Connection failed") }
  else if provider = "stability" then
    if respOk r then { valid := true, error := none }
    else { valid := false, error := some ("Invalid API key") }
  else if provider = "openai" ∨ provider = "dalle3" then
    if respOk r then { valid := true, error := none }
    else { valid := false, error := some ("Invalid API key") }
  else if provider = "gemini" then
    if respOk r then { valid := true, error := none }
    else { valid := false, error := some ("Invalid API key") }
  else if provider = "huggingface" then
    if respOk r then { valid := true, error := none }
    else { valid := false, error := some ("Invalid Hugging Face token") }
  else if provider = "replicate" ∨ provider = "flux" then
    if respOk r then { valid := true, error := none }
    else { valid := false, error := some ("Invalid API key") }
  else if provider = "runway" then
    if respOk r then { valid := true, error := none }
    else if r.status = 401 then { valid := false, error := some ("Invalid API key") }
    else { valid := apiKey.length > 20, error := none }
  else if provider = "ideogram" then
    if r.status = 401 ∨ r.status = 403 then
      { valid := false, error := some ("Invalid API key") }
    else { valid := true, error := none }
  else
    { valid := apiKey.length > 10, error := none }

/-- Entry of the module-level `jobStore` map, keyed by tile id. -/
structure Job : Type where
  provider : String
  jobId : String
  tileId : Nat
  type : MediaType
deriving DecidableEq, Repr

/-- Model of `storeJob`. -/
def storeJob (tileId : Nat) (provider : String) (jobId : String)
    (type : MediaType) (jobs : EntityMap Job) : EntityMap Job :=
  mapSet tileId { provider := provider, jobId := jobId, tileId := tileId,
                  type := type } jobs

/-- Model of `getJob`. -/
def getJob (tileId : Nat) (jobs : EntityMap Job) : Option Job :=
  mapGet tileId jobs

/-- Model of `removeJob`. -/
def removeJob (tileId : Nat) (jobs : EntityMap Job) : EntityMap Job :=
  (mapDelete tileId jobs).1

/-! ## Route layer (server/routes.ts) -/

/-- Process-wide server state: the `MemStorage` maps plus the provider
job store. -/
structure ServerState : Type where
  store : Storage
  jobs : EntityMap Job
deriving DecidableEq, Repr

/-- Parsed body of `generateSchema`. -/
structure GenRequest : Type where
  prompt : String
  provider : Option String
  tileId : Nat
  referenceImageUrl : Option String
deriving DecidableEq, Repr

/-- Model of `FREE_IMAGE_PROVIDERS` in routes.ts. -/
def FREE_IMAGE_PROVIDERS : List String := ["pollinations"]

/-- Key-based image providers eligible as fallback in the image handler. -/
def imageFallbackProviders : List String :=
  ["stability", "flux", "openai", "dalle3", "replicate", "gemini", "ideogram",
   "huggingface"]

/-- Connected video providers eligible as fallback in the video handler. -/
def videoFallbackProviders : List String :=
  ["runway", "kling", "pika", "luma", "veo", "replicate"]

/-- Provider selection of `POST /api/generate/image`: the requested provider
(default `pollinations`) when free or connected, else the first connected
fallback provider in settings order, else free `pollinations`.  Returns the
provider together with the api key passed to `generateImage`. -/
def selectImageProvider (settings : List APISetting) (requested : Option String) :
    String × String :=
  let provider := requested.getD ("pollinations")
  if FREE_IMAGE_PROVIDERS.contains provider then (provider, "")
  else
    match settings.find? (fun e => e.provider = provider && e.isConnected) with
    | some ps => (provider, ps.apiKey)
    | none =>
        match settings.find?
            (fun e => imageFallbackProviders.contains e.provider && e.isConnected) with
        | some fs => (fs.provider, fs.apiKey)
        | none => ("pollinations", "")

/-- Provider selection of `POST /api/generate/video`: the requested provider
(default `runway`) when connected, else the first connected fallback video
provider in settings order; `none` means no connected video provider, in
which case the handler answers with the placeholder without a vendor call. -/
def selectVideoProvider (settings : List APISetting) (requested : Option String) :
    Option (String × String) :=
  let provider := requested.getD ("runway")
  match settings.find? (fun e => e.provider = provider && e.isConnected) with
  | some ps => some (provider, ps.apiKey)
  | none =>
      match settings.find?
          (fun e => videoFallbackProviders.contains e.provider && e.isConnected) with
      | some fs => some (fs.provider, fs.apiKey)
      | none => none

/-- Response of a generation endpoint: the 500 failure payload
`{success:false, error, provider}`, the job-started payload, or the direct
media payload. -/
inductive GenResponse : Type
  | failure (error : Option String) (provider : String)
  | jobStarted (jobId : String) (provider : String) (message : String)
  | media (mediaUrl : Option String) (provider : String) (message : String)
deriving DecidableEq, Repr

/-- Shared tail of the generation handlers: map the result of the one
`generateImage` / `generateVideo` call to the response, storing a job when
the vendor returned a job id (the source tests `if (result.jobId)`, false
for an absent or empty id). -/
def genResponseOf (st : ServerState) (tileId : Nat) (provider : String)
    (type : MediaType) (startMsg doneMsg : String) (result : GenerationResult) :
    GenResponse × ServerState :=
  if result.success = false then (GenResponse.failure result.error provider, st)
  else if result.jobId.getD ("") ≠ "" then
    (GenResponse.jobStarted (result.jobId.getD ("")) provider startMsg,
     { st with jobs := storeJob tileId provider (result.jobId.getD ("")) type st.jobs })
  else
    (GenResponse.media result.mediaUrl provider doneMsg, st)

/-- Model of `POST /api/generate/image`: select one provider, make one
`generateImage` call (abstracted by the oracle `gen` mapping the chosen
provider and api key to the vendor outcome), and answer from that single
result. -/
def handleGenerateImage (st : ServerState) (req : GenRequest)
    (gen : String → String → GenerationResult) : GenResponse × ServerState :=
  let sel := selectImageProvider (getApiSettings st.store) req.provider
  genResponseOf st req.tileId sel.1 MediaType.image ("Generation started")
    ("Image generated with " ++ sel.1) (gen sel.1 sel.2)

/-- Model of `POST /api/generate/video`: select one connected provider and make one
`generateVideo` call, or answer with the picsum placeholder when no video
provider is connected. -/
def handleGenerateVideo (st : ServerState) (req : GenRequest)
    (gen : String → String → GenerationResult) : GenResponse × ServerState :=
  match selectVideoProvider (getApiSettings st.store) req.provider with
  | none =>
      (GenResponse.media
        (some ("https://picsum.photos/seed/" ++ toString req.tileId ++ "/800/450"))
        ("placeholder")
        ("No video AI provider connected. Add Runway, Luma, or Veo API key in Settings."),
       st)
  | some sel =>
      genResponseOf st req.tileId sel.1 MediaType.video ("Video generation started")
        ("Video generated with " ++ sel.1) (gen sel.1 sel.2)

/-- Response of `GET /api/generate/status/:tileId`. -/
inductive StatusResponse : Type
  | notFound (error : String)
  | statusJson (status : JobStatus) (provider : String) (type : MediaType)
deriving DecidableEq, Repr

/-- Model of `GET /api/generate/status/:tileId`: look up the stored job, resolve it
through `checkJobStatus` with the stored provider key, and drop the job once
it is completed or failed. -/
def handleJobStatus (tileId : Nat) (st : ServerState) (vr : VendorStatusResp) :
    StatusResponse × ServerState :=
  match getJob tileId st.jobs with
  | none => (StatusResponse.notFound ("No active job for this tile"), st)
  | some job =>
      let setting := (getApiSettings st.store).find?
        (fun e => e.provider = job.provider)
      let apiKey := (setting.map (fun e => e.apiKey)).getD ("")
      let status := checkJobStatus job.provider job.jobId apiKey vr
      let st' :=
        if status.status = "completed" ∨ status.status = "failed" then
          { st with jobs := removeJob tileId st.jobs }
        else st
      (StatusResponse.statusJson status job.provider job.type, st')

/-! ## Settings routes -/

/-- The mask literal the settings responses substitute for a stored key. -/
def maskStr : String := "••••••••"

/-- Model of `GET /api/settings`: every setting with its key replaced by the mask
when one is stored and by the empty string otherwise. -/
def handleGetSettings (s : Storage) : List APISetting :=
  (getApiSettings s).map
    (fun e => { e with apiKey := if e.apiKey ≠ "" then maskStr else "" })

/-- Response of `POST /api/settings`; the created payload also carries the
constant fields `isConnected: true` and `validated: true` of the source. -/
inductive SettingsPostResponse : Type
  | badRequest (error : String)
  | created (setting : APISetting)
deriving DecidableEq, Repr

/-- Model of `POST /api/settings`: validate the submitted key against the vendor
(abstracted by the oracle response), save it, and answer with the saved
record under the constant mask. -/
def handlePostSettings (s : Storage) (ins : InsertAPISetting)
    (vr : ValidationResp) : SettingsPostResponse × Storage :=
  let validation := validateApiKey ins.provider ins.apiKey vr
  if validation.valid = false then
    (SettingsPostResponse.badRequest (validation.error.getD ("Invalid API key")), s)
  else
    let r := saveApiSetting ins s
    (SettingsPostResponse.created
      { r.1 with apiKey := maskStr, isConnected := true }, r.2)

/-- Partial API-setting update sent to `PATCH /api/settings/:id`. -/
structure APISettingPatch : Type where
  id : Option Nat
  provider : Option String
  apiKey : Option String
  isConnected : Option Bool
deriving DecidableEq, Repr

/-- Merge `{...existing, ...updates}` for an API setting. -/
def mergeApiSetting (t : APISetting) (p : APISettingPatch) : APISetting :=
  { id := p.id.getD t.id
    provider := p.provider.getD t.provider
    apiKey := p.apiKey.getD t.apiKey
    isConnected := p.isConnected.getD t.isConnected }

/-- Modelled from the spec: `storage.getApiSettingById`, called by
`PATCH /api/settings/:id` in routes.ts, is absent from the storage source
under `src/`; per the spec the store is a per-entity map keyed by id, so
the method is by-id map access. -/
def getApiSettingById (id : Nat) (s : Storage) : Option APISetting :=
  mapGet id s.apiSettings

/-- Modelled from the spec: `storage.updateApiSetting`, called by
`PATCH /api/settings/:id` in routes.ts, is absent from the storage source
under `src/`; modelled like every other update method of the map-based
store (merge into the existing record, `none` when the id is unknown). -/
def updateApiSetting (id : Nat) (p : APISettingPatch) (s : Storage) :
    Option APISetting × Storage :=
  match mapGet id s.apiSettings with
  | none => (none, s)
  | some t =>
      let t' := mergeApiSetting t p
      (some t', { s with apiSettings := mapSet id t' s.apiSettings })

/-- Modelled from the spec: `storage.deleteApiSettingById`, called by
`DELETE /api/settings/:id` in routes.ts, is absent from the storage source
under `src/`; modelled as by-id map deletion. -/
def deleteApiSettingById (id : Nat) (s : Storage) : Bool × Storage :=
  let d := mapDelete id s.apiSettings
  (d.2, { s with apiSettings := d.1 })

/-! ## Entity REST handlers with an id path parameter -/

/-- Response of an entity CRUD endpoint: the JSON body, a 404 or 400 with a
JSON error object, or the empty 204. -/
inductive RestResponse (α : Type) : Type
  | ok (body : α)
  | notFound (error : String)
  | badRequest (error : String)
  | noContent
deriving DecidableEq, Repr

/-- Model of `GET /api/timelines/:id`. -/
def handleGetTimeline (id : Nat) (s : Storage) : RestResponse Timeline × Storage :=
  match getTimeline id s with
  | none => (RestResponse.notFound ("Timeline not found"), s)
  | some t => (RestResponse.ok t, s)

/-- Model of `PATCH /api/timelines/:id`. -/
def handlePatchTimeline (id : Nat) (p : TimelinePatch) (s : Storage) :
    RestResponse Timeline × Storage :=
  let r := updateTimeline id p s
  match r.1 with
  | none => (RestResponse.notFound ("Timeline not found"), r.2)
  | some t => (RestResponse.ok t, r.2)

/-- Model of `DELETE /api/timelines/:id`. -/
def handleDeleteTimeline (id : Nat) (s : Storage) :
    RestResponse Timeline × Storage :=
  let r := deleteTimeline id s
  if r.1 then (RestResponse.noContent, r.2)
  else (RestResponse.notFound ("Timeline not found"), r.2)

/-- Model of `GET /api/tiles/:id`. -/
def handleGetTile (id : Nat) (s : Storage) : RestResponse Tile × Storage :=
  match getTile id s with
  | none => (RestResponse.notFound ("Tile not found"), s)
  | some t => (RestResponse.ok t, s)

/-- Model of `PATCH /api/tiles/:id`. -/
def handlePatchTile (id : Nat) (p : TilePatch) (s : Storage) :
    RestResponse Tile × Storage :=
  let r := updateTile id p s
  match r.1 with
  | none => (RestResponse.notFound ("Tile not found"), r.2)
  | some t => (RestResponse.ok t, r.2)

/-- Model of `DELETE /api/tiles/:id`. -/
def handleDeleteTile (id : Nat) (s : Storage) : RestResponse Tile × Storage :=
  let r := deleteTile id s
  if r.1 then (RestResponse.noContent, r.2)
  else (RestResponse.notFound ("Tile not found"), r.2)

/-- Model of `DELETE /api/tile-links/:id`. -/
def handleDeleteTileLink (id : Nat) (s : Storage) :
    RestResponse TileLink × Storage :=
  let r := deleteTileLink id s
  if r.1 then (RestResponse.noContent, r.2)
  else (RestResponse.notFound ("Tile link not found"), r.2)

/-- Model of `DELETE /api/linked-segments/:id`. -/
def handleDeleteLinkedSegment (id : Nat) (s : Storage) :
    RestResponse LinkedSegment × Storage :=
  let r := deleteLinkedSegment id s
  if r.1 then (RestResponse.noContent, r.2)
  else (RestResponse.notFound ("Linked segment not found"), r.2)

/-- Model of `GET /api/audio-tracks/:id`. -/
def handleGetAudioTrack (id : Nat) (s : Storage) :
    RestResponse AudioTrack × Storage :=
  match getAudioTrack id s with
  | none => (RestResponse.notFound ("Audio track not found"), s)
  | some t => (RestResponse.ok t, s)

/-- Model of `PATCH /api/audio-tracks/:id`. -/
def handlePatchAudioTrack (id : Nat) (p : AudioTrackPatch) (s : Storage) :
    RestResponse AudioTrack × Storage :=
  let r := updateAudioTrack id p s
  match r.1 with
  | none => (RestResponse.notFound ("Audio track not found"), r.2)
  | some t => (RestResponse.ok t, r.2)

/-- Model of `DELETE /api/audio-tracks/:id`. -/
def handleDeleteAudioTrack (id : Nat) (s : Storage) :
    RestResponse AudioTrack × Storage :=
  let r := deleteAudioTrack id s
  if r.1 then (RestResponse.noContent, r.2)
  else (RestResponse.notFound ("Audio track not found"), r.2)

/-- Model of `GET /api/audio-clips/:id`. -/
def handleGetAudioClip (id : Nat) (s : Storage) :
    RestResponse AudioClip × Storage :=
  match getAudioClip id s with
  | none => (RestResponse.notFound ("Audio clip not found"), s)
  | some t => (RestResponse.ok t, s)

/-- Model of `PATCH /api/audio-clips/:id`. -/
def handlePatchAudioClip (id : Nat) (p : AudioClipPatch) (s : Storage) :
    RestResponse AudioClip × Storage :=
  let r := updateAudioClip id p s
  match r.1 with
  | none => (RestResponse.notFound ("Audio clip not found"), r.2)
  | some t => (RestResponse.ok t, r.2)

/-- Model of `DELETE /api/audio-clips/:id`. -/
def handleDeleteAudioClip (id : Nat) (s : Storage) :
    RestResponse AudioClip × Storage :=
  let r := deleteAudioClip id s
  if r.1 then (RestResponse.noContent, r.2)
  else (RestResponse.notFound ("Audio clip not found"), r.2)

/-- Model of `PATCH /api/settings/:id`: when the body carries a (truthy) key and the
setting exists, validate the key against the vendor and force
`isConnected: true`; then merge; reply 404 when the id is unknown, masking
the key in the success payload. -/
def handlePatchApiSetting (id : Nat) (p : APISettingPatch) (s : Storage)
    (vr : ValidationResp) : RestResponse APISetting × Storage :=
  if p.apiKey.getD ("") ≠ "" then
    match getApiSettingById id s with
    | some existing =>
        let validation := validateApiKey existing.provider (p.apiKey.getD ("")) vr
        if validation.valid = false then
          (RestResponse.badRequest (validation.error.getD ("Invalid API key")), s)
        else
          let r := updateApiSetting id { p with isConnected := some true } s
          match r.1 with
          | none => (RestResponse.notFound ("Setting not found"), r.2)
          | some t =>
              (RestResponse.ok
                { t with apiKey := if t.apiKey ≠ "" then maskStr else "" }, r.2)
    | none =>
        let r := updateApiSetting id p s
        match r.1 with
        | none => (RestResponse.notFound ("Setting not found"), r.2)
        | some t =>
            (RestResponse.ok
              { t with apiKey := if t.apiKey ≠ "" then maskStr else "" }, r.2)
  else
    let r := updateApiSetting id p s
    match r.1 with
    | none => (RestResponse.notFound ("Setting not found"), r.2)
    | some t =>
        (RestResponse.ok
          { t with apiKey := if t.apiKey ≠ "" then maskStr else "" }, r.2)

/-- Model of `DELETE /api/settings/:id`. -/
def handleDeleteApiSetting (id : Nat) (s : Storage) :
    RestResponse APISetting × Storage :=
  let r := deleteApiSettingById id s
  if r.1 then (RestResponse.noContent, r.2)
  else (RestResponse.notFound ("Setting not found"), r.2)

/-! ## Lemmas about the map model -/

/-- The keys of an entity map, in insertion order. -/
def mapKeys {α : Type} (l : EntityMap α) : List Nat :=
  l.map (fun e => e.1)

theorem mapKeys_mapSet {α : Type} (k : Nat) (v : α) (l : EntityMap α) :
    mapKeys (mapSet k v l) =
      if k ∈ mapKeys l then mapKeys l else mapKeys l ++ [k] := by
  induction l with
  | nil => simp [mapKeys, mapSet]
  | cons e t ih =>
      by_cases hk : e.1 = k
      · simp [mapKeys, mapSet, hk]
      · simp only [mapKeys, mapSet, hk, if_false, List.map_cons]
        simp only [mapKeys] at ih
        rw [ih]
        by_cases hmem : k ∈ t.map (fun e => e.1)
        · simp [hmem, List.mem_cons, Ne.symm hk]
        · simp [hmem, List.mem_cons, Ne.symm hk]

theorem mapSet_of_not_mem {α : Type} {k : Nat} (v : α) {l : EntityMap α}
    (h : k ∉ mapKeys l) : mapSet k v l = l ++ [(k, v)] := by
  induction l with
  | nil => simp [mapSet]
  | cons e t ih =>
      simp only [mapKeys, List.map_cons, List.mem_cons] at h
      push_neg at h
      simp only [mapSet, Ne.symm h.1, if_false, List.cons_append]
      exact congrArg _ (ih h.2)

theorem mapGet_mapSet_self {α : Type} (k : Nat) (v : α) (l : EntityMap α) :
    mapGet k (mapSet k v l) = some v := by
  induction l with
  | nil => simp [mapGet, mapSet, List.find?]
  | cons e t ih =>
      by_cases hk : e.1 = k
      · simp [mapGet, mapSet, hk, List.find?]
      · simp only [mapSet, hk, if_false]
        simpa [mapGet, List.find?, hk] using ih

theorem mapGet_eq_none_iff {α : Type} (k : Nat) (l : EntityMap α) :
    mapGet k l = none ↔ k ∉ mapKeys l := by
  rw [mapGet, Option.map_eq_none', List.find?_eq_none]
  simp only [mapKeys, List.mem_map, decide_eq_true_iff]
  constructor
  · rintro h ⟨e, he, hk⟩
    exact h e he hk
  · intro h e he hk
    exact h ⟨e, he, hk⟩

theorem mapDelete_of_not_mem {α : Type} {k : Nat} {l : EntityMap α}
    (h : k ∉ mapKeys l) : mapDelete k l = (l, false) := by
  induction l with
  | nil => simp [mapDelete]
  | cons e t ih =>
      simp only [mapKeys, List.map_cons, List.mem_cons] at h
      push_neg at h
      simp [mapDelete, Ne.symm h.1, ih h.2]

theorem mapDelete_fst_sublist {α : Type} (k : Nat) (l : EntityMap α) :
    (mapDelete k l).1.Sublist l := by
  induction l with
  | nil => simp [mapDelete]
  | cons e t ih =>
      by_cases hk : e.1 = k
      · simp only [mapDelete, hk, if_true]
        exact (List.sublist_cons_self e t)
      · simp only [mapDelete, hk, if_false]
        exact List.Sublist.cons₂ e ih

theorem mapDelete_eq_filter {α : Type} {k : Nat} {l : EntityMap α}
    (h : (mapKeys l).Nodup) :
    (mapDelete k l).1 = l.filter (fun e => e.1 ≠ k) := by
  induction l with
  | nil => simp [mapDelete]
  | cons e t ih =>
      simp only [mapKeys, List.map_cons, List.nodup_cons] at h
      by_cases hk : e.1 = k
      · have hpe : decide (e.1 ≠ k) = false := by simp [hk]
        have hall : ∀ x ∈ t, decide (x.1 ≠ k) = true := by
          intro x hx
          rw [decide_eq_true_iff]
          intro hxk
          exact h.1 (List.mem_map.2 ⟨x, hx, by rw [hxk, hk]⟩)
        simp only [mapDelete, hk, if_true, List.filter_cons, hpe,
          Bool.false_eq_true, if_false]
        rw [if_neg (by simp)]
        exact (List.filter_eq_self.2 hall).symm
      · have hpe : decide (e.1 ≠ k) = true := by simp [hk]
        simp only [mapDelete, hk, if_false, List.filter_cons, hpe, if_true]
        exact congrArg _ (ih h.2)

theorem map_if_key_not_mem {α : Type} {k : Nat} (v : α) {l : EntityMap α}
    (h : k ∉ mapKeys l) :
    l.map (fun e => if e.1 = k then (k, v) else e) = l := by
  have : ∀ e ∈ l, (if e.1 = k then (k, v) else e) = e := by
    intro e he
    have : e.1 ≠ k := by
      intro hk
      exact h (List.mem_map.2 ⟨e, he, hk⟩)
    simp [this]
  calc l.map (fun e => if e.1 = k then (k, v) else e)
      = l.map id := List.map_congr_left (by simpa using this)
    _ = l := List.map_id l

theorem mapSet_of_mem {α : Type} {k : Nat} (v : α) {l : EntityMap α}
    (hnd : (mapKeys l).Nodup) (h : k ∈ mapKeys l) :
    mapSet k v l = l.map (fun e => if e.1 = k then (k, v) else e) := by
  induction l with
  | nil => simp [mapKeys] at h
  | cons e t ih =>
      simp only [mapKeys, List.map_cons, List.nodup_cons] at hnd
      by_cases hk : e.1 = k
      · simp only [mapSet, hk, if_true, List.map_cons]
        rw [map_if_key_not_mem v (by rw [← hk]; exact hnd.1)]
      · have h' : k ∈ mapKeys t := by
          simp only [mapKeys, List.map_cons, List.mem_cons] at h
          exact h.resolve_left (Ne.symm hk)
        simp only [mapSet, hk, if_false, List.map_cons]
        rw [ih hnd.2 h']

theorem mem_of_key_unique {α : Type} {k : Nat} {a b : α} {l : EntityMap α}
    (hnd : (mapKeys l).Nodup) (ha : (k, a) ∈ l) (hb : (k, b) ∈ l) : a = b := by
  induction l with
  | nil => simp at ha
  | cons e t ih =>
      simp only [mapKeys, List.map_cons, List.nodup_cons] at hnd
      rcases List.mem_cons.1 ha with ha1 | ha2
      · rcases List.mem_cons.1 hb with hb1 | hb2
        · exact congrArg Prod.snd (ha1.trans hb1.symm)
        · exfalso
          exact hnd.1 (by
            rw [show e.1 = k from by rw [← ha1]]
            exact List.mem_map.2 ⟨(k, b), hb2, rfl⟩)
      · rcases List.mem_cons.1 hb with hb1 | hb2
        · exfalso
          exact hnd.1 (by
            rw [show e.1 = k from by rw [← hb1]]
            exact List.mem_map.2 ⟨(k, a), ha2, rfl⟩)
        · exact ih hnd.2 ha2 hb2

/-! ## Lemmas about linked-segment sorting and reindexing -/

theorem sorted_sortSegs (l : List LinkedSegment) :
    (sortSegs l).Pairwise segLE :=
  List.sorted_insertionSort segLE l

theorem sortSegs_perm (l : List LinkedSegment) : (sortSegs l).Perm l :=
  List.perm_insertionSort segLE l

/-- Renumbering pass of `reindexLinkedSegments`: every segment receives the
index it occupies in the sorted sequence. -/
def applyIdx (l : List LinkedSegment) : List LinkedSegment :=
  l.enum.map (fun x => { x.2 with order := Int.ofNat x.1 })

/-- The order values of a list of segments. -/
def segsOrders (l : List LinkedSegment) : List Int :=
  l.map (fun g => g.order)

/-- The ids of a list of segments. -/
def segIds (l : List LinkedSegment) : List Nat :=
  l.map (fun g => g.id)

theorem segsOrders_applyIdx (l : List LinkedSegment) :
    segsOrders (applyIdx l) = (List.range l.length).map Int.ofNat := by
  simp only [segsOrders, applyIdx, List.map_map]
  have : ((fun g => g.order) ∘ fun x : Nat × LinkedSegment =>
      ({ x.2 with order := Int.ofNat x.1 } : LinkedSegment)) =
      (Int.ofNat ∘ Prod.fst) := by
    funext x
    rfl
  rw [this, ← List.map_map, List.enum_map_fst]

theorem length_applyIdx (l : List LinkedSegment) :
    (applyIdx l).length = l.length := by
  simp [applyIdx]

theorem foldl_max_or_mem (l : List Int) (a : Int) :
    l.foldl max a = a ∨ l.foldl max a ∈ l := by
  induction l generalizing a with
  | nil => exact Or.inl rfl
  | cons x t ih =>
      rcases ih (max a x) with h | h
      · rcases max_choice a x with hc | hc
        · exact Or.inl (by rw [List.foldl_cons, h, hc])
        · exact Or.inr (by rw [List.foldl_cons, h, hc]; exact List.mem_cons_self x t)
      · exact Or.inr (List.mem_cons_of_mem x h)

theorem le_foldl_max (l : List Int) (a : Int) :
    a ≤ l.foldl max a ∧ ∀ x ∈ l, x ≤ l.foldl max a := by
  induction l generalizing a with
  | nil => exact ⟨le_refl a, by simp⟩
  | cons y t ih =>
      obtain ⟨h1, h2⟩ := ih (max a y)
      refine ⟨le_trans (le_max_left a y) h1, ?_⟩
      intro x hx
      rcases List.mem_cons.1 hx with rfl | hxt
      · exact le_trans (le_max_right a x) h1
      · exact h2 x hxt

theorem intMax_mem {l : List Int} (h : l ≠ []) : intMax l ∈ l := by
  match l with
  | [] => exact absurd rfl h
  | x :: t =>
      rcases foldl_max_or_mem t x with h1 | h1
      · rw [intMax, h1]; exact List.mem_cons_self x t
      · rw [intMax]; exact List.mem_cons_of_mem x h1

theorem le_intMax {l : List Int} {x : Int} (h : x ∈ l) : x ≤ intMax l := by
  match l with
  | [] => simp at h
  | y :: t =>
      rcases List.mem_cons.1 h with rfl | hxt
      · exact (le_foldl_max t x).1
      · exact (le_foldl_max t y).2 x hxt

/-- Value a segment is mapped to by the reindex pass: the segment of the
sorted sequence carrying its id, renumbered with its position there. -/
def segRenumber (sorted : List LinkedSegment) (g : LinkedSegment) : LinkedSegment :=
  match sorted.enum.find? (fun x => x.2.id = g.id) with
  | some x => { x.2 with order := Int.ofNat x.1 }
  | none => g

theorem find_enumFrom_self (l : List LinkedSegment) (h : (segIds l).Nodup)
    (k i : Nat) (hi : i < l.length) :
    (l.enumFrom k).find? (fun x => x.2.id = l[i].id) = some (k + i, l[i]) := by
  induction l generalizing k i with
  | nil => simp at hi
  | cons a t ih =>
      simp only [segIds, List.map_cons, List.nodup_cons] at h
      match i with
      | 0 =>
          simp only [List.enumFrom_cons, List.getElem_cons_zero]
          rw [List.find?_cons_of_pos _ (by simp)]
          simp
      | i + 1 =>
          have hit : i < t.length := by simpa using hi
          simp only [List.enumFrom_cons, List.getElem_cons_succ]
          rw [List.find?_cons_of_neg _ (by
            simp only [decide_eq_true_iff]
            intro hEq
            exact h.1 (by
              rw [hEq]
              exact List.mem_map.2 ⟨t[i], List.getElem_mem hit, rfl⟩))]
          rw [ih h.2 (k + 1) i hit]
          simp only [Option.some.injEq, Prod.mk.injEq]
          exact ⟨by omega, trivial⟩

theorem map_segRenumber_eq_applyIdx (sorted : List LinkedSegment)
    (h : (segIds sorted).Nodup) :
    sorted.map (segRenumber sorted) = applyIdx sorted := by
  apply List.ext_getElem
  · simp [applyIdx]
  · intro i h1 h2
    have hi : i < sorted.length := by simpa using h1
    rw [List.getElem_map]
    rw [segRenumber, show sorted.enum = sorted.enumFrom 0 from rfl,
      find_enumFrom_self sorted h 0 i hi]
    simp only [applyIdx, List.getElem_map, List.getElem_enum, Nat.zero_add]

/-- One step of the reindex fold. -/
def reindexStep (acc : EntityMap LinkedSegment) (x : Nat × LinkedSegment) :
    EntityMap LinkedSegment :=
  if x.2.order = Int.ofNat x.1 then acc
  else mapSet x.2.id { x.2 with order := Int.ofNat x.1 } acc

theorem reindexLinkedSegments_eq_foldl (m : EntityMap LinkedSegment) :
    reindexLinkedSegments m = (sortSegs (mapValues m)).enum.foldl reindexStep m :=
  rfl

theorem mapKeys_map_if {α : Type} (k : Nat) (v : α) (l : EntityMap α) :
    mapKeys (l.map (fun e => if e.1 = k then (k, v) else e)) = mapKeys l := by
  simp only [mapKeys, List.map_map]
  apply List.map_congr_left
  intro e _
  by_cases h : e.1 = k
  · simp [Function.comp, h]
  · simp [Function.comp, h]

theorem foldl_reindexStep_char (todo : List (Nat × LinkedSegment)) :
    ∀ (m : EntityMap LinkedSegment),
    (mapKeys m).Nodup →
    (∀ e ∈ m, e.2.id = e.1) →
    (∀ x ∈ todo, (x.2.id, x.2) ∈ m) →
    (todo.map (fun x => x.2.id)).Nodup →
    todo.foldl reindexStep m =
      m.map (fun e =>
        match todo.find? (fun x => x.2.id = e.1) with
        | some x => (e.1, { x.2 with order := Int.ofNat x.1 })
        | none => e) := by
  induction todo with
  | nil =>
      intro m _ _ _ _
      simp only [List.foldl_nil, List.find?_nil]
      exact (List.map_id m).symm
  | cons x rest ih =>
      intro m hnd hal hmem hids
      have hxm : (x.2.id, x.2) ∈ m := hmem x (List.mem_cons_self x rest)
      have hxkeys : x.2.id ∈ mapKeys m :=
        List.mem_map.2 ⟨(x.2.id, x.2), hxm, rfl⟩
      simp only [List.map_cons, List.nodup_cons] at hids
      rw [List.foldl_cons]
      by_cases hord : x.2.order = Int.ofNat x.1
      · have hstep : reindexStep m x = m := by simp [reindexStep, hord]
        rw [hstep, ih m hnd hal (fun y hy => hmem y (List.mem_cons_of_mem x hy))
          hids.2]
        apply List.map_congr_left
        intro e he
        by_cases hke : x.2.id = e.1
        · have hrest : rest.find? (fun y => y.2.id = e.1) = none := by
            rw [List.find?_eq_none]
            intro y hy
            simp only [decide_eq_true_iff]
            intro hy2
            exact hids.1 (List.mem_map.2 ⟨y, hy, hy2.trans hke.symm⟩)
          rw [hrest, List.find?_cons_of_pos _ (by simpa using hke)]
          have hv2 : e.2 = x.2 := mem_of_key_unique hnd he (hke ▸ hxm)
          have heta : ({ x.2 with order := Int.ofNat x.1 } : LinkedSegment) = x.2 := by
            rw [← hord]
          show e = (e.1, { x.2 with order := Int.ofNat x.1 })
          rw [heta, ← hv2]
        · rw [List.find?_cons_of_neg _ (by simpa using hke)]
      · have hstep : reindexStep m x =
            m.map (fun e => if e.1 = x.2.id then
              (x.2.id, { x.2 with order := Int.ofNat x.1 }) else e) := by
          rw [reindexStep, if_neg hord, mapSet_of_mem _ hnd hxkeys]
        have hndm' : (mapKeys (m.map (fun e => if e.1 = x.2.id then
            (x.2.id, { x.2 with order := Int.ofNat x.1 }) else e))).Nodup := by
          rw [mapKeys_map_if]; exact hnd
        have halm' : ∀ e ∈ m.map (fun e => if e.1 = x.2.id then
            (x.2.id, { x.2 with order := Int.ofNat x.1 }) else e), e.2.id = e.1 := by
          intro e he'
          obtain ⟨e0, he0, rfl⟩ := List.mem_map.1 he'
          by_cases h0 : e0.1 = x.2.id
          · simp only [h0, if_true]
          · simp only [h0, if_false]
            exact hal e0 he0
        have hmem' : ∀ y ∈ rest, (y.2.id, y.2) ∈ m.map (fun e =>
            if e.1 = x.2.id then
              (x.2.id, { x.2 with order := Int.ofNat x.1 }) else e) := by
          intro y hy
          have h1 : (y.2.id, y.2) ∈ m := hmem y (List.mem_cons_of_mem x hy)
          have h2 : y.2.id ≠ x.2.id := fun hEq =>
            hids.1 (List.mem_map.2 ⟨y, hy, hEq⟩)
          have h3 : (fun e : Nat × LinkedSegment => if e.1 = x.2.id then
              (x.2.id, { x.2 with order := Int.ofNat x.1 }) else e)
              (y.2.id, y.2) = (y.2.id, y.2) := by
            simp [h2]
          rw [← h3]
          exact List.mem_map_of_mem _ h1
        rw [hstep, ih _ hndm' halm' hmem' hids.2, List.map_map]
        apply List.map_congr_left
        intro e he
        simp only [Function.comp]
        by_cases hke : e.1 = x.2.id
        · have hrest : rest.find? (fun y => y.2.id =
              ((x.2.id, ({ x.2 with order := Int.ofNat x.1 } : LinkedSegment))).1) =
              none := by
            rw [List.find?_eq_none]
            intro y hy
            simp only [decide_eq_true_iff]
            intro hy2
            exact hids.1 (List.mem_map.2 ⟨y, hy, hy2⟩)
          simp only [hke, if_true]
          rw [hrest, List.find?_cons_of_pos _ (by simp [hke])]
        · simp only [hke, if_false]
          rw [List.find?_cons_of_neg _ (by
            simp only [decide_eq_true_iff]
            exact fun h => hke h.symm)]

theorem segIds_mapValues {m : EntityMap LinkedSegment}
    (hal : ∀ e ∈ m, e.2.id = e.1) : segIds (mapValues m) = mapKeys m := by
  simp only [segIds, mapValues, mapKeys, List.map_map]
  apply List.map_congr_left
  intro e he
  exact hal e he

theorem mem_entry_of_mem_values {m : EntityMap LinkedSegment}
    (hal : ∀ e ∈ m, e.2.id = e.1) {g : LinkedSegment}
    (hg : g ∈ mapValues m) : (g.id, g) ∈ m := by
  obtain ⟨⟨k, v⟩, hem, he2⟩ := List.mem_map.1 hg
  simp only at he2
  subst he2
  have h1 : v.id = k := hal (k, v) hem
  rw [h1]
  exact hem

theorem segIds_sortSegs_nodup (m : EntityMap LinkedSegment)
    (hnd : (mapKeys m).Nodup) (hal : ∀ e ∈ m, e.2.id = e.1) :
    (segIds (sortSegs (mapValues m))).Nodup := by
  have hperm : (segIds (sortSegs (mapValues m))).Perm (segIds (mapValues m)) :=
    List.Perm.map _ (sortSegs_perm (mapValues m))
  exact hperm.nodup_iff.2 (by rw [segIds_mapValues hal]; exact hnd)

theorem reindex_char (m : EntityMap LinkedSegment)
    (hnd : (mapKeys m).Nodup) (hal : ∀ e ∈ m, e.2.id = e.1) :
    reindexLinkedSegments m = m.map (fun e =>
      match (sortSegs (mapValues m)).enum.find? (fun x => x.2.id = e.1) with
      | some x => (e.1, { x.2 with order := Int.ofNat x.1 })
      | none => e) := by
  rw [reindexLinkedSegments_eq_foldl]
  apply foldl_reindexStep_char _ m hnd hal
  · intro x hx
    have hx2 : x.2 ∈ sortSegs (mapValues m) := by
      have := List.mem_map_of_mem Prod.snd hx
      rwa [List.enum_map_snd] at this
    exact mem_entry_of_mem_values hal ((sortSegs_perm (mapValues m)).subset hx2)
  · have h1 : (sortSegs (mapValues m)).enum.map (fun x => x.2.id) =
        segIds (sortSegs (mapValues m)) := by
      rw [show (fun x : Nat × LinkedSegment => x.2.id) =
        ((fun g : LinkedSegment => g.id) ∘ Prod.snd) from rfl, ← List.map_map,
        List.enum_map_snd]
      rfl
    rw [h1]
    exact segIds_sortSegs_nodup m hnd hal

theorem snd_reindexEntry (sorted : List LinkedSegment) (e : Nat × LinkedSegment)
    (hid : e.2.id = e.1) :
    (match sorted.enum.find? (fun x : Nat × LinkedSegment => x.2.id = e.1) with
     | some x => (e.1, { x.2 with order := Int.ofNat x.1 })
     | none => e).2 = segRenumber sorted e.2 := by
  rw [segRenumber, hid]
  cases sorted.enum.find? (fun x : Nat × LinkedSegment => x.2.id = e.1) with
  | none => rfl
  | some x => rfl

theorem fst_reindexEntry (sorted : List LinkedSegment) (e : Nat × LinkedSegment) :
    (match sorted.enum.find? (fun x : Nat × LinkedSegment => x.2.id = e.1) with
     | some x => (e.1, { x.2 with order := Int.ofNat x.1 })
     | none => e).1 = e.1 := by
  cases sorted.enum.find? (fun x : Nat × LinkedSegment => x.2.id = e.1) with
  | none => rfl
  | some x => rfl

theorem mapValues_reindex (m : EntityMap LinkedSegment)
    (hnd : (mapKeys m).Nodup) (hal : ∀ e ∈ m, e.2.id = e.1) :
    mapValues (reindexLinkedSegments m) =
      (mapValues m).map (segRenumber (sortSegs (mapValues m))) := by
  rw [reindex_char m hnd hal]
  simp only [mapValues, List.map_map]
  apply List.map_congr_left
  intro e he
  exact snd_reindexEntry (sortSegs (mapValues m)) e (hal e he)

theorem mapKeys_reindex (m : EntityMap LinkedSegment)
    (hnd : (mapKeys m).Nodup) (hal : ∀ e ∈ m, e.2.id = e.1) :
    mapKeys (reindexLinkedSegments m) = mapKeys m := by
  rw [reindex_char m hnd hal]
  simp only [mapKeys, List.map_map]
  apply List.map_congr_left
  intro e _
  exact fst_reindexEntry (sortSegs (mapValues m)) e

theorem align_reindex (m : EntityMap LinkedSegment)
    (hnd : (mapKeys m).Nodup) (hal : ∀ e ∈ m, e.2.id = e.1) :
    ∀ e ∈ reindexLinkedSegments m, e.2.id = e.1 := by
  intro e' he'
  rw [reindex_char m hnd hal] at he'
  obtain ⟨e, hem, rfl⟩ := List.mem_map.1 he'
  cases hF : (sortSegs (mapValues m)).enum.find? (fun x => x.2.id = e.1) with
  | none =>
      simp only [hF]
      exact hal e hem
  | some x =>
      have hp := List.find?_some hF
      simp only [decide_eq_true_iff] at hp
      simp only [hF]
      exact hp

theorem length_reindex (m : EntityMap LinkedSegment)
    (hnd : (mapKeys m).Nodup) (hal : ∀ e ∈ m, e.2.id = e.1) :
    (reindexLinkedSegments m).length = m.length := by
  rw [reindex_char m hnd hal]
  simp

theorem segsOrders_mapValues_reindex (m : EntityMap LinkedSegment)
    (hnd : (mapKeys m).Nodup) (hal : ∀ e ∈ m, e.2.id = e.1) :
    (segsOrders (mapValues (reindexLinkedSegments m))).Perm
      ((List.range m.length).map Int.ofNat) := by
  rw [mapValues_reindex m hnd hal]
  have hids := segIds_sortSegs_nodup m hnd hal
  have h1 : segsOrders ((mapValues m).map
      (segRenumber (sortSegs (mapValues m)))) =
      (mapValues m).map
        (fun g => (segRenumber (sortSegs (mapValues m)) g).order) := by
    simp [segsOrders, List.map_map]
  have h2 : ((mapValues m).map
      (fun g => (segRenumber (sortSegs (mapValues m)) g).order)).Perm
      ((sortSegs (mapValues m)).map
        (fun g => (segRenumber (sortSegs (mapValues m)) g).order)) :=
    (List.Perm.map _ (sortSegs_perm (mapValues m))).symm
  have h3 : (sortSegs (mapValues m)).map
      (fun g => (segRenumber (sortSegs (mapValues m)) g).order) =
      segsOrders (applyIdx (sortSegs (mapValues m))) := by
    rw [← map_segRenumber_eq_applyIdx _ hids]
    simp [segsOrders, List.map_map]
  have h4 : segsOrders (applyIdx (sortSegs (mapValues m))) =
      (List.range m.length).map Int.ofNat := by
    rw [segsOrders_applyIdx]
    congr 1
    congr 1
    rw [(sortSegs_perm (mapValues m)).length_eq]
    simp [mapValues]
  rw [h1]
  rw [← h4, ← h3]
  exact h2

theorem foldl_reindexStep_skip (todo : List (Nat × LinkedSegment))
    (acc : EntityMap LinkedSegment)
    (h : ∀ x ∈ todo, x.2.order = Int.ofNat x.1) :
    todo.foldl reindexStep acc = acc := by
  induction todo generalizing acc with
  | nil => rfl
  | cons x rest ih =>
      rw [List.foldl_cons,
        show reindexStep acc x = acc from by
          simp [reindexStep, h x (List.mem_cons_self x rest)]]
      exact ih acc (fun y hy => h y (List.mem_cons_of_mem x hy))

theorem segsOrders_sortSegs_sorted (l : List LinkedSegment) :
    List.Sorted (· ≤ ·) (segsOrders (sortSegs l)) := by
  show List.Pairwise _ _
  simp only [segsOrders]
  rw [List.pairwise_map]
  exact (sorted_sortSegs l).imp (fun h => h)

theorem range_map_ofNat_sorted (n : Nat) :
    List.Sorted (· ≤ ·) ((List.range n).map Int.ofNat) := by
  show List.Pairwise _ _
  rw [List.pairwise_map]
  exact (List.pairwise_lt_range n).imp (by
    intro a b h
    exact Int.ofNat_le.2 (le_of_lt h))

theorem segsOrders_sortSegs_eq (m : EntityMap LinkedSegment)
    (hord : (segsOrders (mapValues m)).Perm ((List.range m.length).map Int.ofNat)) :
    segsOrders (sortSegs (mapValues m)) = (List.range m.length).map Int.ofNat := by
  apply List.eq_of_perm_of_sorted (r := (· ≤ · : Int → Int → Prop))
  · exact (List.Perm.map _ (sortSegs_perm (mapValues m))).trans hord
  · exact segsOrders_sortSegs_sorted (mapValues m)
  · exact range_map_ofNat_sorted m.length

theorem reindex_eq_self (m : EntityMap LinkedSegment)
    (hord : (segsOrders (mapValues m)).Perm ((List.range m.length).map Int.ofNat)) :
    reindexLinkedSegments m = m := by
  rw [reindexLinkedSegments_eq_foldl]
  apply foldl_reindexStep_skip
  intro x hx
  obtain ⟨i, hi, hgx⟩ := List.mem_iff_getElem.1 hx
  have hlen : i < (sortSegs (mapValues m)).length := by simpa using hi
  have h3 := List.getElem_of_eq (segsOrders_sortSegs_eq m hord)
    (show i < (segsOrders (sortSegs (mapValues m))).length from by
      simpa [segsOrders] using hlen)
  simp only [segsOrders, List.getElem_map, List.getElem_range] at h3
  rw [← hgx, List.getElem_enum]
  exact h3

theorem intMax_orders_of_perm {l : List Int} {n : Nat} (hn : 0 < n)
    (h : l.Perm ((List.range n).map Int.ofNat)) : intMax l = Int.ofNat (n - 1) := by
  have hne : l ≠ [] := by
    intro h0
    rw [h0] at h
    have hlen := h.length_eq
    simp at hlen
    omega
  have hmem : intMax l ∈ l := intMax_mem hne
  have hle : intMax l ≤ Int.ofNat (n - 1) := by
    obtain ⟨j, hj, hje⟩ := List.mem_map.1 (h.subset hmem)
    rw [← hje]
    exact Int.ofNat_le.2 (by
      have := List.mem_range.1 hj
      omega)
  have hge : Int.ofNat (n - 1) ≤ intMax l := by
    apply le_intMax
    apply h.mem_iff.2
    exact List.mem_map.2 ⟨n - 1, List.mem_range.2 (by omega), rfl⟩
  exact le_antisymm hle hge

theorem sortSegs_values_reindex (m : EntityMap LinkedSegment)
    (hnd : (mapKeys m).Nodup) (hal : ∀ e ∈ m, e.2.id = e.1) :
    sortSegs (mapValues (reindexLinkedSegments m)) =
      applyIdx (sortSegs (mapValues m)) := by
  have hids := segIds_sortSegs_nodup m hnd hal
  have hY : mapValues (reindexLinkedSegments m) =
      (mapValues m).map (segRenumber (sortSegs (mapValues m))) :=
    mapValues_reindex m hnd hal
  have hYA : ((mapValues m).map (segRenumber (sortSegs (mapValues m)))).Perm
      (applyIdx (sortSegs (mapValues m))) := by
    rw [← map_segRenumber_eq_applyIdx _ hids]
    exact (List.Perm.map _ (sortSegs_perm (mapValues m))).symm
  have hAord : segsOrders (applyIdx (sortSegs (mapValues m))) =
      (List.range (sortSegs (mapValues m)).length).map Int.ofNat :=
    segsOrders_applyIdx (sortSegs (mapValues m))
  rw [hY]
  haveI : IsAntisymm LinkedSegment (fun a b => a.order < b.order) :=
    ⟨by
      intro a b h1 h2
      exact (lt_asymm h1 h2).elim⟩
  apply List.eq_of_perm_of_sorted
    (r := fun a b : LinkedSegment => a.order < b.order)
  · exact (sortSegs_perm _).trans hYA
  · have hp1 := sorted_sortSegs
      ((mapValues m).map (segRenumber (sortSegs (mapValues m))))
    have hndo : (segsOrders (sortSegs ((mapValues m).map
        (segRenumber (sortSegs (mapValues m)))))).Nodup := by
      have hperm : (segsOrders (sortSegs ((mapValues m).map
          (segRenumber (sortSegs (mapValues m)))))).Perm
          (segsOrders (applyIdx (sortSegs (mapValues m)))) :=
        List.Perm.map _ ((sortSegs_perm _).trans hYA)
      rw [hperm.nodup_iff, hAord]
      exact (List.nodup_range _).map (fun a b hab => Int.ofNat.inj hab)
    have hp2 : (sortSegs ((mapValues m).map
        (segRenumber (sortSegs (mapValues m))))).Pairwise
        (fun a b => a.order ≠ b.order) := by
      have hndo' : List.Pairwise (fun a b : Int => a ≠ b)
          ((sortSegs ((mapValues m).map
            (segRenumber (sortSegs (mapValues m))))).map (fun g => g.order)) :=
        hndo
      rw [List.pairwise_map] at hndo'
      exact hndo'
    show List.Pairwise _ _
    exact (hp1.and hp2).imp (by
      rintro a b ⟨h1, h2⟩
      exact lt_of_le_of_ne h1 h2)
  · show List.Pairwise _ _
    have h1 : List.Pairwise (fun a b : Int => a < b)
        ((applyIdx (sortSegs (mapValues m))).map (fun g => g.order)) := by
      have h2 : ((applyIdx (sortSegs (mapValues m))).map (fun g => g.order)) =
          (List.range (sortSegs (mapValues m)).length).map Int.ofNat := hAord
      rw [h2, List.pairwise_map]
      exact (List.pairwise_lt_range _).imp (by
        intro a b h
        exact Int.ofNat_lt.2 h)
    rw [List.pairwise_map] at h1
    exact h1

/-! ## The storage invariant -/

/-- All keys of a map are below the freshness counter. -/
def keysBelow {α : Type} (l : EntityMap α) (n : Nat) : Prop :=
  ∀ k ∈ mapKeys l, k < n

/-- Invariant of every reachable `MemStorage` state: keys are fresh and
distinct, stored records carry their key as id where the code relies on it,
at most one API setting exists per provider, and the linked-segment orders
are exactly 0..n-1. -/
structure StoreInv (s : Storage) : Prop where
  tlBound : keysBelow s.timelines s.nextId
  tlNodup : (mapKeys s.timelines).Nodup
  tiBound : keysBelow s.tiles s.nextId
  tiNodup : (mapKeys s.tiles).Nodup
  lkBound : keysBelow s.tileLinks s.nextId
  lkNodup : (mapKeys s.tileLinks).Nodup
  segBound : keysBelow s.linkedSegments s.nextId
  segNodup : (mapKeys s.linkedSegments).Nodup
  segAligned : ∀ e ∈ s.linkedSegments, e.2.id = e.1
  atBound : keysBelow s.audioTracks s.nextId
  atNodup : (mapKeys s.audioTracks).Nodup
  acBound : keysBelow s.audioClips s.nextId
  acNodup : (mapKeys s.audioClips).Nodup
  stBound : keysBelow s.apiSettings s.nextId
  stNodup : (mapKeys s.apiSettings).Nodup
  stAligned : ∀ e ∈ s.apiSettings, e.2.id = e.1
  stProvNodup : ((mapValues s.apiSettings).map (fun e => e.provider)).Nodup
  segOrders : (segsOrders (mapValues s.linkedSegments)).Perm
    ((List.range s.linkedSegments.length).map Int.ofNat)

theorem notMem_keys_of_below {α : Type} {l : EntityMap α} {n : Nat}
    (hb : keysBelow l n) : n ∉ mapKeys l :=
  fun hmem => lt_irrefl n (hb n hmem)

theorem keysBelow_succ {α : Type} {l : EntityMap α} {n : Nat}
    (hb : keysBelow l n) : keysBelow l (n + 1) :=
  fun k hk => Nat.lt_succ_of_lt (hb k hk)

theorem keysBelow_set_fresh {α : Type} {l : EntityMap α} {n : Nat} (v : α)
    (hb : keysBelow l n) : keysBelow (mapSet n v l) (n + 1) := by
  intro k hk
  rw [mapKeys_mapSet, if_neg (notMem_keys_of_below hb)] at hk
  rcases List.mem_append.1 hk with h | h
  · exact Nat.lt_succ_of_lt (hb k h)
  · simp only [List.mem_singleton] at h
    omega

theorem nodup_append_fresh {β : Type} {l : List β} {x : β}
    (hnd : l.Nodup) (hx : x ∉ l) : (l ++ [x]).Nodup := by
  rw [List.nodup_append]
  refine ⟨hnd, List.nodup_singleton x, ?_⟩
  intro a ha hax
  rw [List.mem_singleton] at hax
  exact hx (hax ▸ ha)

theorem nodup_set_fresh {α : Type} {l : EntityMap α} {n : Nat} (v : α)
    (hb : keysBelow l n) (hnd : (mapKeys l).Nodup) :
    (mapKeys (mapSet n v l)).Nodup := by
  rw [mapKeys_mapSet, if_neg (notMem_keys_of_below hb)]
  exact nodup_append_fresh hnd (notMem_keys_of_below hb)

theorem keysBelow_set_mem {α : Type} {l : EntityMap α} {n k : Nat} (v : α)
    (hb : keysBelow l n) (hk : k ∈ mapKeys l) : keysBelow (mapSet k v l) n := by
  intro k' hk'
  rw [mapKeys_mapSet, if_pos hk] at hk'
  exact hb k' hk'

theorem nodup_set_mem {α : Type} {l : EntityMap α} {k : Nat} (v : α)
    (hnd : (mapKeys l).Nodup) (hk : k ∈ mapKeys l) :
    (mapKeys (mapSet k v l)).Nodup := by
  rw [mapKeys_mapSet, if_pos hk]
  exact hnd

theorem keysBelow_of_sublist {α : Type} {l l' : EntityMap α} {n : Nat}
    (hs : l'.Sublist l) (hb : keysBelow l n) : keysBelow l' n :=
  fun k hk => hb k ((hs.map (fun e => e.1)).subset hk)

theorem nodup_of_sublist {α : Type} {l l' : EntityMap α}
    (hs : l'.Sublist l) (hnd : (mapKeys l).Nodup) : (mapKeys l').Nodup := by
  have h : (mapKeys l').Sublist (mapKeys l) := by
    simp only [mapKeys]
    exact hs.map (fun e => e.1)
  exact List.Nodup.sublist h hnd

theorem mem_all_of_sublist {α : Type} {l l' : EntityMap α}
    {P : Nat × α → Prop} (hs : l'.Sublist l) (h : ∀ e ∈ l, P e) :
    ∀ e ∈ l', P e :=
  fun e he => h e (hs.subset he)

theorem foldl_delete_sublist {α β : Type} (f : β → Nat) (ds : List β)
    (l : EntityMap α) :
    (ds.foldl (fun acc d => (mapDelete (f d) acc).1) l).Sublist l := by
  induction ds generalizing l with
  | nil => exact List.Sublist.refl l
  | cons d rest ih =>
      rw [List.foldl_cons]
      exact (ih ((mapDelete (f d) l).1)).trans (mapDelete_fst_sublist (f d) l)

theorem mapGet_mem_keys {α : Type} {k : Nat} {l : EntityMap α} {v : α}
    (h : mapGet k l = some v) : k ∈ mapKeys l := by
  rw [mapGet] at h
  cases hf : l.find? (fun e => e.1 = k) with
  | none => rw [hf] at h; simp at h
  | some e =>
      have hp := List.find?_some hf
      simp only [decide_eq_true_iff] at hp
      exact hp ▸ List.mem_map.2 ⟨e, List.mem_of_find?_eq_some hf, rfl⟩

theorem mem_entry_generic {α : Type} (f : α → Nat) {m : EntityMap α}
    (hal : ∀ e ∈ m, f e.2 = e.1) {g : α}
    (hg : g ∈ mapValues m) : (f g, g) ∈ m := by
  obtain ⟨⟨k, v⟩, hem, he2⟩ := List.mem_map.1 hg
  simp only at he2
  subst he2
  have h1 : f v = k := hal (k, v) hem
  rw [h1]
  exact hem

theorem aligned_set_fresh {α : Type} (f : α → Nat) {l : EntityMap α} {n : Nat}
    {v : α} (hb : keysBelow l n) (hal : ∀ e ∈ l, f e.2 = e.1) (hv : f v = n) :
    ∀ e ∈ mapSet n v l, f e.2 = e.1 := by
  rw [mapSet_of_not_mem v (notMem_keys_of_below hb)]
  intro e he
  rcases List.mem_append.1 he with h | h
  · exact hal e h
  · rw [List.mem_singleton] at h
    subst h
    exact hv

theorem provNodup_of_sublist {l l' : EntityMap APISetting} (hs : l'.Sublist l)
    (h : ((mapValues l).map (fun e => e.provider)).Nodup) :
    ((mapValues l').map (fun e => e.provider)).Nodup := by
  have hsub : ((mapValues l').map (fun e => e.provider)).Sublist
      ((mapValues l).map (fun e => e.provider)) := by
    simp only [mapValues]
    exact (hs.map _).map _
  exact List.Nodup.sublist hsub h

theorem storeInv_reindex_delete {s : Storage} (inv : StoreInv s)
    (m' : EntityMap LinkedSegment) (hsub : m'.Sublist s.linkedSegments) :
    keysBelow (reindexLinkedSegments m') s.nextId ∧
    (mapKeys (reindexLinkedSegments m')).Nodup ∧
    (∀ e ∈ reindexLinkedSegments m', e.2.id = e.1) ∧
    (segsOrders (mapValues (reindexLinkedSegments m'))).Perm
      ((List.range (reindexLinkedSegments m').length).map Int.ofNat) := by
  have hnd' := nodup_of_sublist hsub inv.segNodup
  have hal' := mem_all_of_sublist hsub inv.segAligned
  have hkeys := mapKeys_reindex m' hnd' hal'
  refine ⟨?_, ?_, align_reindex m' hnd' hal', ?_⟩
  · intro k hk
    rw [hkeys] at hk
    exact keysBelow_of_sublist hsub inv.segBound k hk
  · rw [hkeys]
    exact hnd'
  · rw [length_reindex m' hnd' hal']
    exact segsOrders_mapValues_reindex m' hnd' hal'

theorem storeInv_createTimeline (ins : InsertTimeline) {s : Storage}
    (inv : StoreInv s) : StoreInv (createTimeline ins s).2 :=
  ⟨keysBelow_set_fresh _ inv.tlBound,
   nodup_set_fresh _ inv.tlBound inv.tlNodup,
   keysBelow_succ inv.tiBound, inv.tiNodup,
   keysBelow_succ inv.lkBound, inv.lkNodup,
   keysBelow_succ inv.segBound, inv.segNodup, inv.segAligned,
   keysBelow_succ inv.atBound, inv.atNodup,
   keysBelow_succ inv.acBound, inv.acNodup,
   keysBelow_succ inv.stBound, inv.stNodup, inv.stAligned, inv.stProvNodup,
   inv.segOrders⟩

theorem storeInv_createTile (ins : InsertTile) {s : Storage}
    (inv : StoreInv s) : StoreInv (createTile ins s).2 :=
  ⟨keysBelow_succ inv.tlBound, inv.tlNodup,
   keysBelow_set_fresh _ inv.tiBound,
   nodup_set_fresh _ inv.tiBound inv.tiNodup,
   keysBelow_succ inv.lkBound, inv.lkNodup,
   keysBelow_succ inv.segBound, inv.segNodup, inv.segAligned,
   keysBelow_succ inv.atBound, inv.atNodup,
   keysBelow_succ inv.acBound, inv.acNodup,
   keysBelow_succ inv.stBound, inv.stNodup, inv.stAligned, inv.stProvNodup,
   inv.segOrders⟩

theorem storeInv_createTileLink (ins : InsertTileLink) {s : Storage}
    (inv : StoreInv s) : StoreInv (createTileLink ins s).2 :=
  ⟨keysBelow_succ inv.tlBound, inv.tlNodup,
   keysBelow_succ inv.tiBound, inv.tiNodup,
   keysBelow_set_fresh _ inv.lkBound,
   nodup_set_fresh _ inv.lkBound inv.lkNodup,
   keysBelow_succ inv.segBound, inv.segNodup, inv.segAligned,
   keysBelow_succ inv.atBound, inv.atNodup,
   keysBelow_succ inv.acBound, inv.acNodup,
   keysBelow_succ inv.stBound, inv.stNodup, inv.stAligned, inv.stProvNodup,
   inv.segOrders⟩

theorem storeInv_createAudioTrack (ins : InsertAudioTrack) {s : Storage}
    (inv : StoreInv s) : StoreInv (createAudioTrack ins s).2 :=
  ⟨keysBelow_succ inv.tlBound, inv.tlNodup,
   keysBelow_succ inv.tiBound, inv.tiNodup,
   keysBelow_succ inv.lkBound, inv.lkNodup,
   keysBelow_succ inv.segBound, inv.segNodup, inv.segAligned,
   keysBelow_set_fresh _ inv.atBound,
   nodup_set_fresh _ inv.atBound inv.atNodup,
   keysBelow_succ inv.acBound, inv.acNodup,
   keysBelow_succ inv.stBound, inv.stNodup, inv.stAligned, inv.stProvNodup,
   inv.segOrders⟩

theorem storeInv_createAudioClip (ins : InsertAudioClip) {s : Storage}
    (inv : StoreInv s) : StoreInv (createAudioClip ins s).2 :=
  ⟨keysBelow_succ inv.tlBound, inv.tlNodup,
   keysBelow_succ inv.tiBound, inv.tiNodup,
   keysBelow_succ inv.lkBound, inv.lkNodup,
   keysBelow_succ inv.segBound, inv.segNodup, inv.segAligned,
   keysBelow_succ inv.atBound, inv.atNodup,
   keysBelow_set_fresh _ inv.acBound,
   nodup_set_fresh _ inv.acBound inv.acNodup,
   keysBelow_succ inv.stBound, inv.stNodup, inv.stAligned, inv.stProvNodup,
   inv.segOrders⟩

theorem storeInv_updateTimeline (id : Nat) (p : TimelinePatch) {s : Storage}
    (inv : StoreInv s) : StoreInv (updateTimeline id p s).2 := by
  cases hget : mapGet id s.timelines with
  | none =>
      simp only [updateTimeline, hget]
      exact inv
  | some t =>
      simp only [updateTimeline, hget]
      exact ⟨keysBelow_set_mem _ inv.tlBound (mapGet_mem_keys hget),
        nodup_set_mem _ inv.tlNodup (mapGet_mem_keys hget),
        inv.tiBound, inv.tiNodup, inv.lkBound, inv.lkNodup,
        inv.segBound, inv.segNodup, inv.segAligned,
        inv.atBound, inv.atNodup, inv.acBound, inv.acNodup,
        inv.stBound, inv.stNodup, inv.stAligned, inv.stProvNodup,
        inv.segOrders⟩

theorem storeInv_updateTile (id : Nat) (p : TilePatch) {s : Storage}
    (inv : StoreInv s) : StoreInv (updateTile id p s).2 := by
  cases hget : mapGet id s.tiles with
  | none =>
      simp only [updateTile, hget]
      exact inv
  | some t =>
      simp only [updateTile, hget]
      exact ⟨inv.tlBound, inv.tlNodup,
        keysBelow_set_mem _ inv.tiBound (mapGet_mem_keys hget),
        nodup_set_mem _ inv.tiNodup (mapGet_mem_keys hget),
        inv.lkBound, inv.lkNodup,
        inv.segBound, inv.segNodup, inv.segAligned,
        inv.atBound, inv.atNodup, inv.acBound, inv.acNodup,
        inv.stBound, inv.stNodup, inv.stAligned, inv.stProvNodup,
        inv.segOrders⟩

theorem storeInv_updateAudioTrack (id : Nat) (p : AudioTrackPatch) {s : Storage}
    (inv : StoreInv s) : StoreInv (updateAudioTrack id p s).2 := by
  cases hget : mapGet id s.audioTracks with
  | none =>
      simp only [updateAudioTrack, hget]
      exact inv
  | some t =>
      simp only [updateAudioTrack, hget]
      exact ⟨inv.tlBound, inv.tlNodup, inv.tiBound, inv.tiNodup,
        inv.lkBound, inv.lkNodup,
        inv.segBound, inv.segNodup, inv.segAligned,
        keysBelow_set_mem _ inv.atBound (mapGet_mem_keys hget),
        nodup_set_mem _ inv.atNodup (mapGet_mem_keys hget),
        inv.acBound, inv.acNodup,
        inv.stBound, inv.stNodup, inv.stAligned, inv.stProvNodup,
        inv.segOrders⟩

theorem storeInv_updateAudioClip (id : Nat) (p : AudioClipPatch) {s : Storage}
    (inv : StoreInv s) : StoreInv (updateAudioClip id p s).2 := by
  cases hget : mapGet id s.audioClips with
  | none =>
      simp only [updateAudioClip, hget]
      exact inv
  | some t =>
      simp only [updateAudioClip, hget]
      exact ⟨inv.tlBound, inv.tlNodup, inv.tiBound, inv.tiNodup,
        inv.lkBound, inv.lkNodup,
        inv.segBound, inv.segNodup, inv.segAligned,
        inv.atBound, inv.atNodup,
        keysBelow_set_mem _ inv.acBound (mapGet_mem_keys hget),
        nodup_set_mem _ inv.acNodup (mapGet_mem_keys hget),
        inv.stBound, inv.stNodup, inv.stAligned, inv.stProvNodup,
        inv.segOrders⟩

theorem storeInv_deleteTileLink (id : Nat) {s : Storage}
    (inv : StoreInv s) : StoreInv (deleteTileLink id s).2 :=
  ⟨inv.tlBound, inv.tlNodup, inv.tiBound, inv.tiNodup,
   keysBelow_of_sublist (mapDelete_fst_sublist id s.tileLinks) inv.lkBound,
   nodup_of_sublist (mapDelete_fst_sublist id s.tileLinks) inv.lkNodup,
   inv.segBound, inv.segNodup, inv.segAligned,
   inv.atBound, inv.atNodup, inv.acBound, inv.acNodup,
   inv.stBound, inv.stNodup, inv.stAligned, inv.stProvNodup,
   inv.segOrders⟩

theorem storeInv_deleteAudioTrack (id : Nat) {s : Storage}
    (inv : StoreInv s) : StoreInv (deleteAudioTrack id s).2 :=
  ⟨inv.tlBound, inv.tlNodup, inv.tiBound, inv.tiNodup,
   inv.lkBound, inv.lkNodup,
   inv.segBound, inv.segNodup, inv.segAligned,
   keysBelow_of_sublist (mapDelete_fst_sublist id s.audioTracks) inv.atBound,
   nodup_of_sublist (mapDelete_fst_sublist id s.audioTracks) inv.atNodup,
   inv.acBound, inv.acNodup,
   inv.stBound, inv.stNodup, inv.stAligned, inv.stProvNodup,
   inv.segOrders⟩

theorem storeInv_deleteAudioClip (id : Nat) {s : Storage}
    (inv : StoreInv s) : StoreInv (deleteAudioClip id s).2 :=
  ⟨inv.tlBound, inv.tlNodup, inv.tiBound, inv.tiNodup,
   inv.lkBound, inv.lkNodup,
   inv.segBound, inv.segNodup, inv.segAligned,
   inv.atBound, inv.atNodup,
   keysBelow_of_sublist (mapDelete_fst_sublist id s.audioClips) inv.acBound,
   nodup_of_sublist (mapDelete_fst_sublist id s.audioClips) inv.acNodup,
   inv.stBound, inv.stNodup, inv.stAligned, inv.stProvNodup,
   inv.segOrders⟩

theorem storeInv_clearTileLinks {s : Storage}
    (inv : StoreInv s) : StoreInv (clearTileLinks s).2 :=
  ⟨inv.tlBound, inv.tlNodup, inv.tiBound, inv.tiNodup,
   by intro k hk; simp [clearTileLinks, mapKeys] at hk,
   by simp [clearTileLinks, mapKeys],
   inv.segBound, inv.segNodup, inv.segAligned,
   inv.atBound, inv.atNodup, inv.acBound, inv.acNodup,
   inv.stBound, inv.stNodup, inv.stAligned, inv.stProvNodup,
   inv.segOrders⟩

theorem storeInv_clearLinkedSegments {s : Storage}
    (inv : StoreInv s) : StoreInv (clearLinkedSegments s).2 :=
  ⟨inv.tlBound, inv.tlNodup, inv.tiBound, inv.tiNodup,
   inv.lkBound, inv.lkNodup,
   by intro k hk; simp [clearLinkedSegments, mapKeys] at hk,
   by simp [clearLinkedSegments, mapKeys],
   by intro e he; simp [clearLinkedSegments] at he,
   inv.atBound, inv.atNodup, inv.acBound, inv.acNodup,
   inv.stBound, inv.stNodup, inv.stAligned, inv.stProvNodup,
   by simp [clearLinkedSegments, segsOrders, mapValues]⟩

theorem storeInv_deleteLinkedSegment (id : Nat) {s : Storage}
    (inv : StoreInv s) : StoreInv (deleteLinkedSegment id s).2 := by
  obtain ⟨h1, h2, h3, h4⟩ :=
    storeInv_reindex_delete inv _ (mapDelete_fst_sublist id s.linkedSegments)
  exact ⟨inv.tlBound, inv.tlNodup, inv.tiBound, inv.tiNodup,
    inv.lkBound, inv.lkNodup, h1, h2, h3,
    inv.atBound, inv.atNodup, inv.acBound, inv.acNodup,
    inv.stBound, inv.stNodup, inv.stAligned, inv.stProvNodup, h4⟩

theorem storeInv_deleteLinkedSegmentByTimelinePosition (timelineId : Nat)
    (position : Int) {s : Storage} (inv : StoreInv s) :
    StoreInv (deleteLinkedSegmentByTimelinePosition timelineId position s).2 := by
  cases hfind : (mapValues s.linkedSegments).find?
      (fun g => g.timelineId = timelineId && g.position = position) with
  | none =>
      simp only [deleteLinkedSegmentByTimelinePosition, hfind]
      exact inv
  | some seg =>
      simp only [deleteLinkedSegmentByTimelinePosition, hfind]
      obtain ⟨h1, h2, h3, h4⟩ :=
        storeInv_reindex_delete inv _ (mapDelete_fst_sublist seg.id s.linkedSegments)
      exact ⟨inv.tlBound, inv.tlNodup, inv.tiBound, inv.tiNodup,
        inv.lkBound, inv.lkNodup, h1, h2, h3,
        inv.atBound, inv.atNodup, inv.acBound, inv.acNodup,
        inv.stBound, inv.stNodup, inv.stAligned, inv.stProvNodup, h4⟩

theorem storeInv_deleteTimeline (id : Nat) {s : Storage}
    (inv : StoreInv s) : StoreInv (deleteTimeline id s).2 := by
  obtain ⟨h1, h2, h3, h4⟩ := storeInv_reindex_delete inv _
    (foldl_delete_sublist (fun g : LinkedSegment => g.id)
      ((mapValues s.linkedSegments).filter (fun g => g.timelineId = id))
      s.linkedSegments)
  exact ⟨keysBelow_of_sublist (mapDelete_fst_sublist id s.timelines) inv.tlBound,
    nodup_of_sublist (mapDelete_fst_sublist id s.timelines) inv.tlNodup,
    keysBelow_of_sublist (foldl_delete_sublist _ _ _) inv.tiBound,
    nodup_of_sublist (foldl_delete_sublist _ _ _) inv.tiNodup,
    keysBelow_of_sublist (foldl_delete_sublist _ _ _) inv.lkBound,
    nodup_of_sublist (foldl_delete_sublist _ _ _) inv.lkNodup,
    h1, h2, h3,
    inv.atBound, inv.atNodup, inv.acBound, inv.acNodup,
    inv.stBound, inv.stNodup, inv.stAligned, inv.stProvNodup, h4⟩

theorem storeInv_deleteTile (id : Nat) {s : Storage}
    (inv : StoreInv s) : StoreInv (deleteTile id s).2 := by
  cases hget : mapGet id s.tiles with
  | none =>
      simp only [deleteTile, hget]
      exact ⟨inv.tlBound, inv.tlNodup,
        keysBelow_of_sublist (mapDelete_fst_sublist id s.tiles) inv.tiBound,
        nodup_of_sublist (mapDelete_fst_sublist id s.tiles) inv.tiNodup,
        keysBelow_of_sublist (foldl_delete_sublist _ _ _) inv.lkBound,
        nodup_of_sublist (foldl_delete_sublist _ _ _) inv.lkNodup,
        inv.segBound, inv.segNodup, inv.segAligned,
        inv.atBound, inv.atNodup, inv.acBound, inv.acNodup,
        inv.stBound, inv.stNodup, inv.stAligned, inv.stProvNodup,
        inv.segOrders⟩
  | some t =>
      simp only [deleteTile, hget]
      obtain ⟨h1, h2, h3, h4⟩ := storeInv_reindex_delete inv _
        (foldl_delete_sublist (fun g : LinkedSegment => g.id)
          ((mapValues s.linkedSegments).filter
            (fun g => g.timelineId = t.timelineId && g.position = t.position))
          s.linkedSegments)
      exact ⟨inv.tlBound, inv.tlNodup,
        keysBelow_of_sublist (mapDelete_fst_sublist id s.tiles) inv.tiBound,
        nodup_of_sublist (mapDelete_fst_sublist id s.tiles) inv.tiNodup,
        keysBelow_of_sublist (foldl_delete_sublist _ _ _) inv.lkBound,
        nodup_of_sublist (foldl_delete_sublist _ _ _) inv.lkNodup,
        h1, h2, h3,
        inv.atBound, inv.atNodup, inv.acBound, inv.acNodup,
        inv.stBound, inv.stNodup, inv.stAligned, inv.stProvNodup, h4⟩

theorem storeInv_deleteApiSetting (provider : String) {s : Storage}
    (inv : StoreInv s) : StoreInv (deleteApiSetting provider s).2 := by
  cases hfind : (mapValues s.apiSettings).find?
      (fun e => e.provider = provider) with
  | none =>
      simp only [deleteApiSetting, hfind]
      exact inv
  | some setting =>
      simp only [deleteApiSetting, hfind]
      exact ⟨inv.tlBound, inv.tlNodup, inv.tiBound, inv.tiNodup,
        inv.lkBound, inv.lkNodup,
        inv.segBound, inv.segNodup, inv.segAligned,
        inv.atBound, inv.atNodup, inv.acBound, inv.acNodup,
        keysBelow_of_sublist (mapDelete_fst_sublist setting.id s.apiSettings)
          inv.stBound,
        nodup_of_sublist (mapDelete_fst_sublist setting.id s.apiSettings)
          inv.stNodup,
        mem_all_of_sublist (mapDelete_fst_sublist setting.id s.apiSettings)
          inv.stAligned,
        provNodup_of_sublist (mapDelete_fst_sublist setting.id s.apiSettings)
          inv.stProvNodup,
        inv.segOrders⟩

theorem segsOrders_append_one (l : List LinkedSegment) (g : LinkedSegment) :
    segsOrders (l ++ [g]) = segsOrders l ++ [g.order] := by
  simp [segsOrders]

theorem perm_range_snoc {l : List Int} {n : Nat}
    (h : l.Perm ((List.range n).map Int.ofNat)) :
    (l ++ [Int.ofNat n]).Perm ((List.range (n + 1)).map Int.ofNat) := by
  rw [List.range_succ, List.map_append]
  exact h.append_right _

theorem storeInv_createLinkedSegment (ins : InsertLinkedSegment) {s : Storage}
    (inv : StoreInv s) : StoreInv (createLinkedSegment ins s).2 := by
  have hfresh : s.nextId ∉ mapKeys s.linkedSegments :=
    notMem_keys_of_below inv.segBound
  refine ⟨keysBelow_succ inv.tlBound, inv.tlNodup,
    keysBelow_succ inv.tiBound, inv.tiNodup,
    keysBelow_succ inv.lkBound, inv.lkNodup,
    keysBelow_set_fresh _ inv.segBound,
    nodup_set_fresh _ inv.segBound inv.segNodup,
    ?_,
    keysBelow_succ inv.atBound, inv.atNodup,
    keysBelow_succ inv.acBound, inv.acNodup,
    keysBelow_succ inv.stBound, inv.stNodup, inv.stAligned, inv.stProvNodup,
    ?_⟩
  · show ∀ e ∈ mapSet s.nextId
        { id := s.nextId, timelineId := ins.timelineId,
          position := ins.position,
          order := if (mapValues s.linkedSegments).length > 0 then
            intMax ((mapValues s.linkedSegments).map (fun g => g.order)) + 1
          else 0 }
        s.linkedSegments, e.2.id = e.1
    refine aligned_set_fresh (fun g => g.id) inv.segBound inv.segAligned ?_
    rfl
  by_cases hlen : (mapValues s.linkedSegments).length > 0
  · have hn : 0 < s.linkedSegments.length := by simpa [mapValues] using hlen
    have hmax : intMax (segsOrders (mapValues s.linkedSegments)) =
        Int.ofNat (s.linkedSegments.length - 1) :=
      intMax_orders_of_perm hn inv.segOrders
    have hstep : Int.ofNat (s.linkedSegments.length - 1) + 1 =
        Int.ofNat s.linkedSegments.length := by
      obtain ⟨mlen, hml⟩ : ∃ m, s.linkedSegments.length = m + 1 :=
        ⟨s.linkedSegments.length - 1, by omega⟩
      rw [hml]
      simp [Int.ofNat_succ]
    simp only [createLinkedSegment, if_pos hlen]
    rw [mapSet_of_not_mem _ hfresh]
    simp only [mapValues, List.map_append, List.map_cons, List.map_nil,
      segsOrders, List.length_append, List.length_cons, List.length_nil]
    have hmax' : intMax (List.map (fun g => g.order)
        (List.map (fun e => e.2) s.linkedSegments)) =
        Int.ofNat (s.linkedSegments.length - 1) := hmax
    rw [hmax', hstep]
    exact perm_range_snoc inv.segOrders
  · have hnil : s.linkedSegments = [] := by
      have h0 : (mapValues s.linkedSegments).length = 0 := by omega
      exact List.length_eq_zero.1 (by simpa [mapValues] using h0)
    simp only [createLinkedSegment, if_neg hlen, hnil]
    simp [mapSet, mapValues, segsOrders, List.range_succ]

theorem storeInv_saveApiSetting (ins : InsertAPISetting) {s : Storage}
    (inv : StoreInv s) : StoreInv (saveApiSetting ins s).2 := by
  cases hf : (mapValues s.apiSettings).find? (fun e => e.provider = ins.provider) with
  | none =>
      simp only [saveApiSetting, hf]
      have hnotin : ins.provider ∉
          (mapValues s.apiSettings).map (fun e => e.provider) := by
        intro hmem
        obtain ⟨v, hv, hveq⟩ := List.mem_map.1 hmem
        have := List.find?_eq_none.1 hf v hv
        simp [hveq] at this
      refine ⟨keysBelow_succ inv.tlBound, inv.tlNodup,
        keysBelow_succ inv.tiBound, inv.tiNodup,
        keysBelow_succ inv.lkBound, inv.lkNodup,
        keysBelow_succ inv.segBound, inv.segNodup, inv.segAligned,
        keysBelow_succ inv.atBound, inv.atNodup,
        keysBelow_succ inv.acBound, inv.acNodup,
        keysBelow_set_fresh _ inv.stBound,
        nodup_set_fresh _ inv.stBound inv.stNodup,
        ?_, ?_, inv.segOrders⟩
      · refine aligned_set_fresh (fun a => a.id) inv.stBound inv.stAligned ?_
        rfl
      · rw [mapSet_of_not_mem _ (notMem_keys_of_below inv.stBound)]
        simp only [mapValues, List.map_append, List.map_cons, List.map_nil]
        exact nodup_append_fresh inv.stProvNodup hnotin
  | some e0 =>
      simp only [saveApiSetting, hf]
      have he0v : e0 ∈ mapValues s.apiSettings := List.mem_of_find?_eq_some hf
      have he0m : (e0.id, e0) ∈ s.apiSettings :=
        mem_entry_generic (fun a => a.id) inv.stAligned he0v
      have hkeys : e0.id ∈ mapKeys s.apiSettings :=
        List.mem_map.2 ⟨(e0.id, e0), he0m, rfl⟩
      have hprov : e0.provider = ins.provider := by
        have := List.find?_some hf
        simpa using this
      have heq : ∀ v : APISetting, v.provider = ins.provider →
          (mapValues (mapSet e0.id v s.apiSettings)).map (fun e => e.provider) =
          (mapValues s.apiSettings).map (fun e => e.provider) := by
        intro v hvp
        rw [mapSet_of_mem _ inv.stNodup hkeys]
        simp only [mapValues, List.map_map]
        apply List.map_congr_left
        intro e he
        simp only [Function.comp]
        by_cases h0 : e.1 = e0.id
        · have he' : (e0.id, e.2) ∈ s.apiSettings := by
            rw [← h0]
            exact he
          have he2 : e.2 = e0 := mem_of_key_unique inv.stNodup he' he0m
          simp only [h0, if_true]
          rw [hvp, he2, hprov]
        · simp only [h0, if_false]
      refine ⟨inv.tlBound, inv.tlNodup, inv.tiBound, inv.tiNodup,
        inv.lkBound, inv.lkNodup,
        inv.segBound, inv.segNodup, inv.segAligned,
        inv.atBound, inv.atNodup, inv.acBound, inv.acNodup,
        keysBelow_set_mem _ inv.stBound hkeys,
        nodup_set_mem _ inv.stNodup hkeys,
        ?_, ?_, inv.segOrders⟩
      · rw [mapSet_of_mem _ inv.stNodup hkeys]
        intro e he
        obtain ⟨e1, he1, rfl⟩ := List.mem_map.1 he
        by_cases h0 : e1.1 = e0.id
        · simp only [h0, if_true]
        · simp only [h0, if_false]
          exact inv.stAligned e1 he1
      · rw [heq _ rfl]
        exact inv.stProvNodup

theorem storeInv_empty : StoreInv emptyStorage := by
  constructor <;>
    simp [emptyStorage, keysBelow, mapKeys, mapValues, segsOrders]

/-- Every reachable storage state satisfies the invariant. -/
theorem storeInv_of_reachable {s : Storage} (h : Reachable s) : StoreInv s := by
  induction h with
  | empty => exact storeInv_empty
  | createTimeline ins _ ih => exact storeInv_createTimeline ins ih
  | updateTimeline id p _ ih => exact storeInv_updateTimeline id p ih
  | deleteTimeline id _ ih => exact storeInv_deleteTimeline id ih
  | createTile ins _ ih => exact storeInv_createTile ins ih
  | updateTile id p _ ih => exact storeInv_updateTile id p ih
  | deleteTile id _ ih => exact storeInv_deleteTile id ih
  | createTileLink ins _ ih => exact storeInv_createTileLink ins ih
  | deleteTileLink id _ ih => exact storeInv_deleteTileLink id ih
  | clearTileLinks _ ih => exact storeInv_clearTileLinks ih
  | createLinkedSegment ins _ ih => exact storeInv_createLinkedSegment ins ih
  | deleteLinkedSegment id _ ih => exact storeInv_deleteLinkedSegment id ih
  | deleteLinkedSegmentByTimelinePosition tid pos _ ih =>
      exact storeInv_deleteLinkedSegmentByTimelinePosition tid pos ih
  | clearLinkedSegments _ ih => exact storeInv_clearLinkedSegments ih
  | createAudioTrack ins _ ih => exact storeInv_createAudioTrack ins ih
  | updateAudioTrack id p _ ih => exact storeInv_updateAudioTrack id p ih
  | deleteAudioTrack id _ ih => exact storeInv_deleteAudioTrack id ih
  | createAudioClip ins _ ih => exact storeInv_createAudioClip ins ih
  | updateAudioClip id p _ ih => exact storeInv_updateAudioClip id p ih
  | deleteAudioClip id _ ih => exact storeInv_deleteAudioClip id ih
  | saveApiSetting ins _ ih => exact storeInv_saveApiSetting ins ih
  | deleteApiSetting provider _ ih => exact storeInv_deleteApiSetting provider ih

/-! ## Claim theorems -/

/-- Concrete insert payloads used by concrete-input theorems. -/
def tlIns : InsertTimeline :=
  { name := "Main Timeline", isCollapsed := false, order := 0, height := none }

/-- Concrete tile payload referencing a given timeline id. -/
def tiIns (tlId : Nat) : InsertTile :=
  { type := MediaType.image, timelineId := tlId, position := 0, prompt := "",
    provider := none, model := none, mediaUrl := none, selectedFrame := 0,
    isGenerating := false, duration := none }

/-- C7: For every valid insert payload, creating an entity and then fetching
it by the returned id round-trips: the fetched record equals the insert
payload with the freshly generated id, for tiles, timelines, audio tracks
and audio clips. -/
theorem create_get_roundtrip (s : Storage) (ti : InsertTile)
    (tl : InsertTimeline) (tr : InsertAudioTrack) (cl : InsertAudioClip) :
    getTile (createTile ti s).1.id (createTile ti s).2 =
      some { id := s.nextId, type := ti.type, timelineId := ti.timelineId,
             position := ti.position, prompt := ti.prompt,
             provider := ti.provider, model := ti.model,
             mediaUrl := ti.mediaUrl, selectedFrame := ti.selectedFrame,
             isGenerating := ti.isGenerating, duration := ti.duration } ∧
    getTimeline (createTimeline tl s).1.id (createTimeline tl s).2 =
      some { id := s.nextId, name := tl.name, isCollapsed := tl.isCollapsed,
             order := tl.order, height := tl.height } ∧
    getAudioTrack (createAudioTrack tr s).1.id (createAudioTrack tr s).2 =
      some { id := s.nextId, name := tr.name, type := tr.type,
             audioUrl := tr.audioUrl, startTime := tr.startTime,
             duration := tr.duration, volume := tr.volume,
             isMuted := tr.isMuted, isSolo := tr.isSolo, fadeIn := tr.fadeIn,
             fadeOut := tr.fadeOut } ∧
    getAudioClip (createAudioClip cl s).1.id (createAudioClip cl s).2 =
      some { id := s.nextId, trackId := cl.trackId, name := cl.name,
             audioUrl := cl.audioUrl, startTime := cl.startTime,
             duration := cl.duration, trimStart := cl.trimStart,
             trimEnd := cl.trimEnd, prompt := cl.prompt,
             provider := cl.provider } :=
  ⟨mapGet_mapSet_self _ _ _, mapGet_mapSet_self _ _ _,
   mapGet_mapSet_self _ _ _, mapGet_mapSet_self _ _ _⟩

/-- C4 counterexample: a tile on a timeline does not survive
`deleteTimeline` of that timeline; the delete cascades instead of leaving
the tiles map unchanged. -/
theorem deleteTimeline_cascades_cex :
    (getTile 1 (createTile (tiIns 0)
        (createTimeline tlIns emptyStorage).2).2).isSome = true ∧
    (deleteTimeline 0 (createTile (tiIns 0)
        (createTimeline tlIns emptyStorage).2).2).1 = true ∧
    getTile 1 (deleteTimeline 0 (createTile (tiIns 0)
        (createTimeline tlIns emptyStorage).2).2).2 = none := by
  decide

theorem foldl_mapDelete_eq_filter {α : Type} (fId : α → Nat) :
    ∀ (ds : List α) (l : EntityMap α), (mapKeys l).Nodup →
    ds.foldl (fun acc v => (mapDelete (fId v) acc).1) l =
      l.filter (fun e => !(ds.any (fun v => fId v = e.1))) := by
  intro ds
  induction ds with
  | nil =>
      intro l _
      simp
  | cons d rest ih =>
      intro l hnd
      rw [List.foldl_cons, ih _ (nodup_of_sublist (mapDelete_fst_sublist _ _) hnd),
        mapDelete_eq_filter hnd, List.filter_filter]
      apply List.filter_congr
      intro e _
      simp only [List.any_cons, Bool.not_or, Bool.not_eq_true']
      cases hde : decide (fId d = e.1) with
      | true =>
          simp only [decide_eq_true_iff] at hde
          simp [hde]
      | false =>
          simp only [decide_eq_false_iff_not] at hde
          simp [Ne.symm hde, hde]

theorem cascade_delete_eq_filter {α : Type} (fId : α → Nat) (p : α → Bool)
    (l : EntityMap α) (hnd : (mapKeys l).Nodup)
    (hal : ∀ e ∈ l, fId e.2 = e.1) :
    ((mapValues l).filter p).foldl (fun acc v => (mapDelete (fId v) acc).1) l =
      l.filter (fun e => !(p e.2)) := by
  rw [foldl_mapDelete_eq_filter fId _ l hnd]
  apply List.filter_congr
  intro e he
  have hany : ((mapValues l).filter p).any (fun v => fId v = e.1) = p e.2 := by
    cases hpe : p e.2 with
    | true =>
        apply List.any_eq_true.2
        refine ⟨e.2, List.mem_filter.2 ⟨List.mem_map.2 ⟨e, he, rfl⟩, hpe⟩, ?_⟩
        simp [hal e he]
    | false =>
        apply List.any_eq_false.2
        intro v hv
        obtain ⟨hvval, hvp⟩ := List.mem_filter.1 hv
        simp only [decide_eq_true_iff]
        intro hveq
        have hvm : (fId v, v) ∈ l := mem_entry_generic fId hal hvval
        rw [hveq] at hvm
        have hveq2 : v = e.2 := mem_of_key_unique hnd hvm he
        rw [hveq2, hpe] at hvp
        exact Bool.false_ne_true hvp
  rw [hany]

/-- C4 amended: `deleteTimeline` removes the timeline record and also
cascade-deletes the tiles, tile links and linked segments whose
`timelineId` matches (reindexing the surviving segments); the other maps
and the id counter are untouched.  The id-alignment hypotheses hold in any
state in which no PATCH body has overwritten a stored `id` field. -/
theorem deleteTimeline_cascade (s : Storage) (id : Nat) (hr : Reachable s)
    (hti : ∀ e ∈ s.tiles, e.2.id = e.1)
    (hlk : ∀ e ∈ s.tileLinks, e.2.id = e.1) :
    (deleteTimeline id s).2.tiles =
      s.tiles.filter (fun e => !(e.2.timelineId = id)) ∧
    (deleteTimeline id s).2.tileLinks =
      s.tileLinks.filter (fun e => !(e.2.timelineId = id)) ∧
    (deleteTimeline id s).2.linkedSegments =
      reindexLinkedSegments
        (s.linkedSegments.filter (fun e => !(e.2.timelineId = id))) ∧
    (deleteTimeline id s).2.timelines = (mapDelete id s.timelines).1 ∧
    (deleteTimeline id s).2.audioTracks = s.audioTracks ∧
    (deleteTimeline id s).2.audioClips = s.audioClips ∧
    (deleteTimeline id s).2.apiSettings = s.apiSettings ∧
    (deleteTimeline id s).2.nextId = s.nextId := by
  have inv := storeInv_of_reachable hr
  refine ⟨?_, ?_, ?_, rfl, rfl, rfl, rfl, rfl⟩
  · exact cascade_delete_eq_filter (fun t : Tile => t.id) _ _ inv.tiNodup hti
  · exact cascade_delete_eq_filter (fun t : TileLink => t.id) _ _ inv.lkNodup hlk
  · show reindexLinkedSegments _ = _
    rw [cascade_delete_eq_filter (fun g : LinkedSegment => g.id) _ _
      inv.segNodup inv.segAligned]

/-- Witness for C4 amended at the two-record store of the counterexample. -/
theorem deleteTimeline_cascade_witness :
    Reachable (createTile (tiIns 0) (createTimeline tlIns emptyStorage).2).2 ∧
    (deleteTimeline 0 (createTile (tiIns 0)
        (createTimeline tlIns emptyStorage).2).2).2.tiles =
      ((createTile (tiIns 0) (createTimeline tlIns emptyStorage).2).2).tiles.filter
        (fun e => !(e.2.timelineId = 0)) :=
  have hreach : Reachable (createTile (tiIns 0)
      (createTimeline tlIns emptyStorage).2).2 :=
    Reachable.createTile (tiIns 0) (Reachable.createTimeline tlIns Reachable.empty)
  ⟨hreach,
   (deleteTimeline_cascade _ 0 hreach (by decide) (by decide)).1⟩

/-- C10: In every reachable store there is at most one APISetting per
provider name; `saveApiSetting` updates the existing record in place
keeping its id and key set when one exists and creates a fresh record
otherwise, and the saved record is connected exactly when the submitted key
is non-empty. -/
theorem apiSetting_unique_provider (s : Storage) (hr : Reachable s) :
    ((getApiSettings s).map (fun e => e.provider)).Nodup ∧
    ∀ ins : InsertAPISetting,
      ((saveApiSetting ins s).1.isConnected = true ↔ ins.apiKey ≠ "") ∧
      (saveApiSetting ins s).1.provider = ins.provider ∧
      (saveApiSetting ins s).1.apiKey = ins.apiKey ∧
      (∀ e0, getApiSetting ins.provider s = some e0 →
        (saveApiSetting ins s).1.id = e0.id ∧
        mapKeys (saveApiSetting ins s).2.apiSettings = mapKeys s.apiSettings ∧
        (saveApiSetting ins s).2.nextId = s.nextId) ∧
      (getApiSetting ins.provider s = none →
        (saveApiSetting ins s).1.id = s.nextId ∧
        (saveApiSetting ins s).2.apiSettings =
          s.apiSettings ++ [(s.nextId, (saveApiSetting ins s).1)] ∧
        (saveApiSetting ins s).2.nextId = s.nextId + 1) := by
  have inv := storeInv_of_reachable hr
  refine ⟨inv.stProvNodup, ?_⟩
  intro ins
  cases hf : (mapValues s.apiSettings).find? (fun e => e.provider = ins.provider) with
  | some e0 =>
      have he0v : e0 ∈ mapValues s.apiSettings := List.mem_of_find?_eq_some hf
      have he0m : (e0.id, e0) ∈ s.apiSettings :=
        mem_entry_generic (fun a => a.id) inv.stAligned he0v
      have hkeys : e0.id ∈ mapKeys s.apiSettings :=
        List.mem_map.2 ⟨(e0.id, e0), he0m, rfl⟩
      refine ⟨by simp [saveApiSetting, hf], by simp [saveApiSetting, hf],
        by simp [saveApiSetting, hf], ?_, ?_⟩
      · intro e0' he0'
        simp only [getApiSetting, hf, Option.some.injEq] at he0'
        subst he0'
        refine ⟨by simp [saveApiSetting, hf], ?_, by simp [saveApiSetting, hf]⟩
        simp only [saveApiSetting, hf]
        rw [mapKeys_mapSet, if_pos hkeys]
      · intro hnone
        rw [getApiSetting, hf] at hnone
        exact absurd hnone (by simp)
  | none =>
      refine ⟨by simp [saveApiSetting, hf], by simp [saveApiSetting, hf],
        by simp [saveApiSetting, hf], ?_, ?_⟩
      · intro e0 he0
        rw [getApiSetting, hf] at he0
        exact absurd he0 (by simp)
      · intro _
        refine ⟨by simp [saveApiSetting, hf], ?_, by simp [saveApiSetting, hf]⟩
        simp only [saveApiSetting, hf]
        exact mapSet_of_not_mem _ (notMem_keys_of_below inv.stBound)

/-- Witness for C10 at a store holding one saved setting. -/
theorem apiSetting_unique_provider_witness :
    Reachable (saveApiSetting ⟨"stability", "sk-test-key-12345"⟩ emptyStorage).2 ∧
    ((getApiSettings (saveApiSetting ⟨"stability", "sk-test-key-12345"⟩
        emptyStorage).2).map (fun e => e.provider)).Nodup :=
  have hreach : Reachable (saveApiSetting ⟨"stability", "sk-test-key-12345"⟩
      emptyStorage).2 :=
    Reachable.saveApiSetting _ Reachable.empty
  ⟨hreach, (apiSetting_unique_provider _ hreach).1⟩

/-- C9: In every reachable store the linked-segment orders are pairwise
distinct and exactly the set 0..n-1; `createLinkedSegment` assigns the next
order (max existing + 1, equivalently the segment count), the getter
returns segments sorted ascending by order, and each deleting operation
reindexes the survivors to 0..m-1 preserving their previous ascending
order. -/
theorem linkedSegment_order_invariant (s : Storage) (hr : Reachable s)
    (ins : InsertLinkedSegment) (id tid : Nat) (pos : Int) :
    (segsOrders (mapValues s.linkedSegments)).Nodup ∧
    (segsOrders (mapValues s.linkedSegments)).Perm
      ((List.range s.linkedSegments.length).map Int.ofNat) ∧
    (createLinkedSegment ins s).1.order = Int.ofNat s.linkedSegments.length ∧
    (getLinkedSegments s).Pairwise segLE ∧
    getLinkedSegments (deleteLinkedSegment id s).2 =
      applyIdx (sortSegs (mapValues (mapDelete id s.linkedSegments).1)) ∧
    (∀ seg, (mapValues s.linkedSegments).find?
        (fun g => g.timelineId = tid && g.position = pos) = some seg →
      getLinkedSegments (deleteLinkedSegmentByTimelinePosition tid pos s).2 =
        applyIdx (sortSegs (mapValues (mapDelete seg.id s.linkedSegments).1))) ∧
    getLinkedSegments (deleteTimeline id s).2 =
      applyIdx (sortSegs (mapValues
        (s.linkedSegments.filter (fun e => !(e.2.timelineId = id))))) ∧
    (∀ t, mapGet id s.tiles = some t →
      getLinkedSegments (deleteTile id s).2 =
        applyIdx (sortSegs (mapValues (s.linkedSegments.filter
          (fun e => !(e.2.timelineId = t.timelineId &&
            e.2.position = t.position)))))) := by
  have inv := storeInv_of_reachable hr
  refine ⟨?_, inv.segOrders, ?_, sorted_sortSegs _, ?_, ?_, ?_, ?_⟩
  · exact inv.segOrders.nodup_iff.2
      ((List.nodup_range _).map (fun a b hab => Int.ofNat.inj hab))
  · by_cases hlen : (mapValues s.linkedSegments).length > 0
    · have hn : 0 < s.linkedSegments.length := by simpa [mapValues] using hlen
      have hmax : intMax ((mapValues s.linkedSegments).map (fun g => g.order)) =
          Int.ofNat (s.linkedSegments.length - 1) :=
        intMax_orders_of_perm hn inv.segOrders
      simp only [createLinkedSegment, if_pos hlen, hmax]
      obtain ⟨mlen, hml⟩ : ∃ m, s.linkedSegments.length = m + 1 :=
        ⟨s.linkedSegments.length - 1, by omega⟩
      rw [hml]
      simp [Int.ofNat_succ]
    · have hnil : s.linkedSegments = [] := by
        have h0 : (mapValues s.linkedSegments).length = 0 := by omega
        exact List.length_eq_zero.1 (by simpa [mapValues] using h0)
      simp [createLinkedSegment, hnil, mapValues]
  · show sortSegs (mapValues (reindexLinkedSegments
        (mapDelete id s.linkedSegments).1)) = _
    exact sortSegs_values_reindex _
      (nodup_of_sublist (mapDelete_fst_sublist _ _) inv.segNodup)
      (mem_all_of_sublist (mapDelete_fst_sublist _ _) inv.segAligned)
  · intro seg hseg
    simp only [deleteLinkedSegmentByTimelinePosition, hseg]
    show sortSegs (mapValues (reindexLinkedSegments
        (mapDelete seg.id s.linkedSegments).1)) = _
    exact sortSegs_values_reindex _
      (nodup_of_sublist (mapDelete_fst_sublist _ _) inv.segNodup)
      (mem_all_of_sublist (mapDelete_fst_sublist _ _) inv.segAligned)
  · show sortSegs (mapValues (reindexLinkedSegments
        (((mapValues s.linkedSegments).filter
          (fun g => g.timelineId = id)).foldl
          (fun acc g => (mapDelete g.id acc).1) s.linkedSegments))) = _
    rw [cascade_delete_eq_filter (fun g : LinkedSegment => g.id) _ _
      inv.segNodup inv.segAligned]
    exact sortSegs_values_reindex _
      (nodup_of_sublist (List.filter_sublist _) inv.segNodup)
      (mem_all_of_sublist (List.filter_sublist _) inv.segAligned)
  · intro t ht
    simp only [deleteTile, ht]
    show sortSegs (mapValues (reindexLinkedSegments
        (((mapValues s.linkedSegments).filter
          (fun g => g.timelineId = t.timelineId && g.position = t.position)).foldl
          (fun acc g => (mapDelete g.id acc).1) s.linkedSegments))) = _
    rw [cascade_delete_eq_filter (fun g : LinkedSegment => g.id) _ _
      inv.segNodup inv.segAligned]
    exact sortSegs_values_reindex _
      (nodup_of_sublist (List.filter_sublist _) inv.segNodup)
      (mem_all_of_sublist (List.filter_sublist _) inv.segAligned)

/-- Witness for C9 at a store holding two created segments. -/
theorem linkedSegment_order_invariant_witness :
    Reachable (createLinkedSegment ⟨5, 1⟩
      (createLinkedSegment ⟨5, 0⟩ emptyStorage).2).2 ∧
    segsOrders (mapValues ((createLinkedSegment ⟨5, 1⟩
      (createLinkedSegment ⟨5, 0⟩ emptyStorage).2).2).linkedSegments) =
      [0, 1] ∧
    (segsOrders (mapValues ((createLinkedSegment ⟨5, 1⟩
      (createLinkedSegment ⟨5, 0⟩ emptyStorage).2).2).linkedSegments)).Nodup :=
  have hreach : Reachable (createLinkedSegment ⟨5, 1⟩
      (createLinkedSegment ⟨5, 0⟩ emptyStorage).2).2 :=
    Reachable.createLinkedSegment _
      (Reachable.createLinkedSegment _ Reachable.empty)
  ⟨hreach, by decide,
   (linkedSegment_order_invariant _ hreach ⟨5, 2⟩ 0 5 0).1⟩

/-- C5: every status reported by `checkJobStatus` lies in the four-value
set pending/processing/completed/failed, and the status endpoint resolves a
stored job exactly by calling `checkJobStatus` with the stored provider,
job id and that provider's stored key (or 404s when no job is stored). -/
theorem jobStatus_four_valued :
    (∀ (provider jobId apiKey : String) (r : VendorStatusResp),
      (checkJobStatus provider jobId apiKey r).status ∈
        (["pending", "processing", "completed", "failed"] : List String)) ∧
    (∀ (tileId : Nat) (st : ServerState) (vr : VendorStatusResp),
      (handleJobStatus tileId st vr).1 =
        StatusResponse.notFound ("No active job for this tile") ∨
      ∃ job, getJob tileId st.jobs = some job ∧
        (handleJobStatus tileId st vr).1 =
          StatusResponse.statusJson
            (checkJobStatus job.provider job.jobId
              ((((getApiSettings st.store).find?
                (fun e => e.provider = job.provider)).map
                  (fun e => e.apiKey)).getD ("")) vr)
            job.provider job.type) := by
  constructor
  · intro provider jobId apiKey r
    by_cases h0 : apiKey = ""
    · simp [checkJobStatus, h0]
    · by_cases h1 : provider = "runway"
      · simp only [checkJobStatus, if_neg h0, if_pos h1]
        split_ifs <;> simp [statusCatch]
      · by_cases h2 : provider = "flux" ∨ provider = "replicate"
        · simp only [checkJobStatus, if_neg h0, if_neg h1, if_pos h2]
          split_ifs <;> simp [statusCatch]
        · by_cases h3 : provider = "luma"
          · simp only [checkJobStatus, if_neg h0, if_neg h1, if_neg h2,
              if_pos h3]
            split_ifs <;> simp [statusCatch]
          · by_cases h4 : provider = "veo"
            · simp only [checkJobStatus, if_neg h0, if_neg h1, if_neg h2,
                if_neg h3, if_pos h4]
              split_ifs <;>
                (rcases herr : r.errField with _ | m <;>
                  rcases hurl : r.outputUrl with _ | u <;>
                    simp [statusCatch, herr, hurl])
            · by_cases h5 : provider = "kling"
              · simp only [checkJobStatus, if_neg h0, if_neg h1, if_neg h2,
                  if_neg h3, if_neg h4, if_pos h5]
                split_ifs <;> simp [statusCatch]
              · simp only [checkJobStatus, if_neg h0, if_neg h1, if_neg h2,
                  if_neg h3, if_neg h4, if_neg h5]
                simp
  · intro tileId st vr
    cases hjob : getJob tileId st.jobs with
    | none =>
        left
        simp [handleJobStatus, hjob]
    | some job =>
        right
        exact ⟨job, rfl, by simp only [handleJobStatus, hjob]⟩

/-- Insert payload of the C8 counterexample: an empty ideogram key. -/
def c8Ins : InsertAPISetting := { provider := "ideogram", apiKey := "" }

/-- Vendor outcome of the C8 counterexample: the ideogram describe request
answers 500, which `validateApiKey` does not treat as invalid. -/
def c8Resp : ValidationResp := { threw := false, status := 500 }

/-- C8 counterexample: a POST with an empty key that passes vendor
validation stores no key, yet the 201 response carries the mask
`••••••••` instead of the empty string the claim requires when no key is
stored. -/
theorem settings_mask_cex :
    validateApiKey ("ideogram") "" c8Resp = { valid := true, error := none } ∧
    (handlePostSettings emptyStorage c8Ins c8Resp).1 =
      SettingsPostResponse.created
        { id := 0, provider := "ideogram", apiKey := "••••••••",
          isConnected := true } ∧
    getApiSetting ("ideogram") (handlePostSettings emptyStorage c8Ins c8Resp).2 =
      some { id := 0, provider := "ideogram", apiKey := "",
             isConnected := false } := by
  decide

theorem maskList_congr : ∀ (l1 l2 : List APISetting),
    List.Forall₂ (fun a b => a.id = b.id ∧ a.provider = b.provider ∧
      a.isConnected = b.isConnected ∧ (a.apiKey = "" ↔ b.apiKey = "")) l1 l2 →
    l1.map (fun e => { e with apiKey := if e.apiKey ≠ "" then maskStr else "" }) =
      l2.map (fun e => { e with apiKey := if e.apiKey ≠ "" then maskStr else "" }) := by
  intro l1 l2 h
  induction h with
  | nil => rfl
  | @cons a b t1 t2 hab hrest ih =>
      obtain ⟨hid, hprov, hconn, hkey⟩ := hab
      simp only [List.map_cons, ih]
      congr 1
      cases a with
      | mk aid aprov akey aconn =>
          cases b with
          | mk bid bprov bkey bconn =>
              simp only at hid hprov hconn hkey
              subst hid
              subst hprov
              subst hconn
              by_cases hk : akey = ""
              · have hbk : bkey = "" := hkey.1 hk
                simp [hk, hbk]
              · have hbk : ¬bkey = "" := fun hb => hk (hkey.2 hb)
                simp [hk, hbk]

/-- C8 amended: GET masks each stored key (mask when non-empty, empty
string when empty) and its response depends on the stored keys only
through their emptiness (two-run noninterference); POST success responses
always carry the constant mask regardless of the stored key. -/
theorem settings_masking :
    (∀ (s : Storage), ∀ r ∈ handleGetSettings s,
      r.apiKey = maskStr ∨ r.apiKey = "") ∧
    (∀ (s1 s2 : Storage),
      List.Forall₂ (fun a b : APISetting => a.id = b.id ∧
        a.provider = b.provider ∧ a.isConnected = b.isConnected ∧
        (a.apiKey = "" ↔ b.apiKey = ""))
        (getApiSettings s1) (getApiSettings s2) →
      handleGetSettings s1 = handleGetSettings s2) ∧
    (∀ (s : Storage) (ins : InsertAPISetting) (vr : ValidationResp)
        (st : APISetting),
      (handlePostSettings s ins vr).1 = SettingsPostResponse.created st →
      st.apiKey = maskStr) := by
  refine ⟨?_, ?_, ?_⟩
  · intro s r hr
    obtain ⟨e, _, rfl⟩ := List.mem_map.1 hr
    by_cases hk : e.apiKey = ""
    · right
      simp [hk]
    · left
      simp [hk]
  · intro s1 s2 h
    exact maskList_congr _ _ h
  · intro s ins vr st h
    by_cases hv : (validateApiKey ins.provider ins.apiKey vr).valid = false
    · simp [handlePostSettings, hv] at h
    · simp only [handlePostSettings, if_neg hv] at h
      cases h
      rfl

/-- First store of the C8 witness: one stability key. -/
def c8S1 : Storage :=
  { emptyStorage with apiSettings :=
      [(0, { id := 0, provider := "stability", apiKey := "sk-first-key-111",
             isConnected := true })] }

/-- Second store of the C8 witness: a different stability key. -/
def c8S2 : Storage :=
  { emptyStorage with apiSettings :=
      [(0, { id := 0, provider := "stability", apiKey := "sk-second-key-222",
             isConnected := true })] }

/-- Witness for C8: two stores differing only in the key content produce
the same GET response. -/
theorem settings_masking_witness :
    List.Forall₂ (fun a b : APISetting => a.id = b.id ∧
      a.provider = b.provider ∧ a.isConnected = b.isConnected ∧
      (a.apiKey = "" ↔ b.apiKey = ""))
      (getApiSettings c8S1) (getApiSettings c8S2) ∧
    handleGetSettings c8S1 = handleGetSettings c8S2 :=
  have hF : List.Forall₂ (fun a b : APISetting => a.id = b.id ∧
      a.provider = b.provider ∧ a.isConnected = b.isConnected ∧
      (a.apiKey = "" ↔ b.apiKey = ""))
      (getApiSettings c8S1) (getApiSettings c8S2) :=
    List.Forall₂.cons ⟨rfl, rfl, rfl, by decide⟩ List.Forall₂.nil
  ⟨hF, settings_masking.2.1 c8S1 c8S2 hF⟩

/-- Settings of the C1 counterexample: two connected image providers. -/
def c1St : ServerState :=
  { store := { emptyStorage with apiSettings :=
      [(0, { id := 0, provider := "stability", apiKey := "sk-stab-key-12345",
             isConnected := true }),
       (1, { id := 1, provider := "openai", apiKey := "sk-open-key-67890",
             isConnected := true })] },
    jobs := [] }

/-- Request of the C1 counterexample. -/
def c1Req : GenRequest :=
  { prompt := "a cat", provider := some ("stability"), tileId := 7,
    referenceImageUrl := none }

/-- Vendor oracle of the C1 counterexample: stability fails, openai would
succeed. -/
def c1Gen : String → String → GenerationResult := fun p _ =>
  if p = "stability" then
    { success := false, mediaUrl := none,
      error := some ("Stability API error: 429"), jobId := none }
  else
    { success := true, mediaUrl := some ("https://images.example/cat.png"),
      error := none, jobId := none }

/-- C1 counterexample: with two connected providers and the second one
succeeding, the failure of the single attempted provider already produces
a failure response; no further candidate is tried. -/
theorem generate_no_fallback_cex :
    ((getApiSettings c1St.store).filter (fun e => e.isConnected)).length = 2 ∧
    (c1Gen ("openai") "sk-open-key-67890").success = true ∧
    (handleGenerateImage c1St c1Req c1Gen).1 =
      GenResponse.failure (some ("Stability API error: 429")) "stability" := by
  decide

/-- C1 amended: each generation handler selects exactly one provider and
makes one vendor call; the response is a function of that single outcome
(so it is unchanged under any oracle agreeing there), a failed call yields
the failure response immediately, and an unconnected video selection
answers with the placeholder without any vendor call. -/
theorem generate_single_vendor_call :
    (∀ (st : ServerState) (req : GenRequest)
        (gen gen' : String → String → GenerationResult),
      (gen (selectImageProvider (getApiSettings st.store) req.provider).1
          (selectImageProvider (getApiSettings st.store) req.provider).2 =
        gen' (selectImageProvider (getApiSettings st.store) req.provider).1
          (selectImageProvider (getApiSettings st.store) req.provider).2 →
        handleGenerateImage st req gen = handleGenerateImage st req gen') ∧
      ((gen (selectImageProvider (getApiSettings st.store) req.provider).1
          (selectImageProvider (getApiSettings st.store) req.provider).2).success
          = false →
        handleGenerateImage st req gen =
          (GenResponse.failure
            (gen (selectImageProvider (getApiSettings st.store) req.provider).1
              (selectImageProvider (getApiSettings st.store) req.provider).2).error
            (selectImageProvider (getApiSettings st.store) req.provider).1,
           st))) ∧
    (∀ (st : ServerState) (req : GenRequest)
        (gen gen' : String → String → GenerationResult),
      (∀ sel, selectVideoProvider (getApiSettings st.store) req.provider =
          some sel →
        (gen sel.1 sel.2 = gen' sel.1 sel.2 →
          handleGenerateVideo st req gen = handleGenerateVideo st req gen') ∧
        ((gen sel.1 sel.2).success = false →
          handleGenerateVideo st req gen =
            (GenResponse.failure (gen sel.1 sel.2).error sel.1, st))) ∧
      (selectVideoProvider (getApiSettings st.store) req.provider = none →
        handleGenerateVideo st req gen =
          (GenResponse.media
            (some ("https://picsum.photos/seed/" ++ toString req.tileId ++
              "/800/450"))
            ("placeholder")
            ("No video AI provider connected. Add Runway, Luma, or Veo API key in Settings."),
           st))) := by
  constructor
  · intro st req gen gen'
    constructor
    · intro h
      simp only [handleGenerateImage]
      rw [h]
    · intro h
      simp only [handleGenerateImage, genResponseOf, h]
      simp
  · intro st req gen gen'
    constructor
    · intro sel hsel
      constructor
      · intro h
        simp only [handleGenerateVideo, hsel]
        rw [h]
      · intro h
        simp only [handleGenerateVideo, hsel, genResponseOf, h]
        simp
    · intro hsel
      simp only [handleGenerateVideo, hsel]

/-- Witness for C1 amended at the counterexample inputs. -/
theorem generate_single_vendor_call_witness :
    (c1Gen (selectImageProvider (getApiSettings c1St.store) c1Req.provider).1
      (selectImageProvider (getApiSettings c1St.store) c1Req.provider).2).success
      = false ∧
    handleGenerateImage c1St c1Req c1Gen =
      (GenResponse.failure (some ("Stability API error: 429")) "stability",
       c1St) :=
  ⟨by decide, by
    rw [(generate_single_vendor_call.1 c1St c1Req c1Gen c1Gen).2 (by decide)]
    decide⟩

/-- State of the C2 counterexample: only openai is connected. -/
def c2St : ServerState :=
  { store := { emptyStorage with apiSettings :=
      [(0, { id := 0, provider := "openai", apiKey := "sk-open-key-67890",
             isConnected := true })] },
    jobs := [] }

/-- Request of the C2 counterexample: it explicitly names stability. -/
def c2Req : GenRequest :=
  { prompt := "a dog", provider := some ("stability"), tileId := 3,
    referenceImageUrl := none }

/-- First oracle of the C2 counterexample: stability would succeed. -/
def c2GenA : String → String → GenerationResult := fun p _ =>
  if p = "stability" then
    { success := true, mediaUrl := some ("https://images.example/stab.png"),
      error := none, jobId := none }
  else
    { success := true, mediaUrl := some ("https://images.example/other.png"),
      error := none, jobId := none }

/-- Second oracle of the C2 counterexample: stability would fail. -/
def c2GenB : String → String → GenerationResult := fun p _ =>
  if p = "stability" then
    { success := false, mediaUrl := none, error := some ("boom"), jobId := none }
  else
    { success := true, mediaUrl := some ("https://images.example/other.png"),
      error := none, jobId := none }

/-- C2 counterexample: the explicitly requested but unconnected provider is
not placed first — it is never attempted at all: selection picks the
connected fallback, and the response does not depend on the requested
vendor's outcome. -/
theorem selection_ignores_requested_cex :
    c2Req.provider = some ("stability") ∧
    selectImageProvider (getApiSettings c2St.store) c2Req.provider =
      ("openai", "sk-open-key-67890") ∧
    c2GenA ("stability") "" ≠ c2GenB ("stability") "" ∧
    handleGenerateImage c2St c2Req c2GenA =
      handleGenerateImage c2St c2Req c2GenB := by
  decide

/-- Helper: over a split list, when every element of the prefix fails the
predicate and the head of the suffix satisfies it, the head of the suffix
is the result of the insertion-order scan. -/
theorem find_append_first {α : Type} (p : α → Bool) (l1 l2 : List α) (e : α)
    (h1 : ∀ x ∈ l1, p x = false) (he : p e = true) :
    (l1 ++ e :: l2).find? p = some e := by
  induction l1 with
  | nil => simp [List.find?_cons, he]
  | cons a t ih =>
      have ha : p a = false := h1 a (by simp)
      rw [List.cons_append, List.find?_cons_of_neg _ (by simp [ha])]
      exact ih (fun x hx => h1 x (by simp [hx]))

/-- Helper: Boolean list membership agrees with propositional membership. -/
theorem contains_true_iff (l : List String) (a : String) :
    l.contains a = true ↔ a ∈ l := by
  simp [List.contains, List.elem_iff]

/-- C2 amended: generation builds no ordered candidate list and no status or
priority field exists; at most one provider is picked.  Images: the
requested provider (default pollinations) is used with an empty key when it
is a free provider; otherwise, when a stored setting for it is connected,
it is used with the first such setting's key (conjunct 3); otherwise the
stored settings are scanned in insertion order and the first connected one
whose provider is among the eight key-based image providers (stability,
flux, openai, dalle3, replicate, gemini, ideogram, huggingface) is used
(conjunct 4); otherwise free pollinations (conjunct 5).  Video (default
runway): the connected-requested check (conjunct 7), then the
insertion-order scan over the six video providers (runway, kling, pika,
luma, veo, replicate; conjunct 8), else no provider — placeholder, no
vendor call (conjuncts 9 and 10).  The chosen provider is always free or
connected (conjuncts 1 and 6), so a requested but unconnected non-free
provider is never attempted. -/
theorem provider_selection_characterized :
    ∀ (settings : List APISetting) (req : Option String),
      ((selectImageProvider settings req).1 ∈ FREE_IMAGE_PROVIDERS ∨
        ∃ e ∈ settings, e.provider = (selectImageProvider settings req).1 ∧
          e.isConnected = true) ∧
      (req.getD ("pollinations") ∈ FREE_IMAGE_PROVIDERS →
        selectImageProvider settings req = (req.getD ("pollinations"), "")) ∧
      (req.getD ("pollinations") ∉ FREE_IMAGE_PROVIDERS →
        ∀ (l1 : List APISetting) (e : APISetting) (l2 : List APISetting),
          settings = l1 ++ e :: l2 →
          e.provider = req.getD ("pollinations") → e.isConnected = true →
          (∀ x ∈ l1, ¬(x.provider = req.getD ("pollinations") ∧
            x.isConnected = true)) →
          selectImageProvider settings req =
            (req.getD ("pollinations"), e.apiKey)) ∧
      (req.getD ("pollinations") ∉ FREE_IMAGE_PROVIDERS →
        (∀ x ∈ settings, ¬(x.provider = req.getD ("pollinations") ∧
          x.isConnected = true)) →
        ∀ (l1 : List APISetting) (e : APISetting) (l2 : List APISetting),
          settings = l1 ++ e :: l2 →
          e.provider ∈ imageFallbackProviders → e.isConnected = true →
          (∀ x ∈ l1, ¬(x.provider ∈ imageFallbackProviders ∧
            x.isConnected = true)) →
          selectImageProvider settings req = (e.provider, e.apiKey)) ∧
      (req.getD ("pollinations") ∉ FREE_IMAGE_PROVIDERS →
        (∀ x ∈ settings, ¬(x.provider = req.getD ("pollinations") ∧
          x.isConnected = true)) →
        (∀ x ∈ settings, ¬(x.provider ∈ imageFallbackProviders ∧
          x.isConnected = true)) →
        selectImageProvider settings req = ("pollinations", "")) ∧
      (∀ sel, selectVideoProvider settings req = some sel →
        ∃ e ∈ settings, e.provider = sel.1 ∧ e.isConnected = true) ∧
      (∀ (l1 : List APISetting) (e : APISetting) (l2 : List APISetting),
        settings = l1 ++ e :: l2 →
        e.provider = req.getD ("runway") → e.isConnected = true →
        (∀ x ∈ l1, ¬(x.provider = req.getD ("runway") ∧
          x.isConnected = true)) →
        selectVideoProvider settings req =
          some (req.getD ("runway"), e.apiKey)) ∧
      ((∀ x ∈ settings, ¬(x.provider = req.getD ("runway") ∧
          x.isConnected = true)) →
        ∀ (l1 : List APISetting) (e : APISetting) (l2 : List APISetting),
          settings = l1 ++ e :: l2 →
          e.provider ∈ videoFallbackProviders → e.isConnected = true →
          (∀ x ∈ l1, ¬(x.provider ∈ videoFallbackProviders ∧
            x.isConnected = true)) →
          selectVideoProvider settings req = some (e.provider, e.apiKey)) ∧
      ((∀ x ∈ settings, ¬(x.provider = req.getD ("runway") ∧
          x.isConnected = true)) →
        (∀ x ∈ settings, ¬(x.provider ∈ videoFallbackProviders ∧
          x.isConnected = true)) →
        selectVideoProvider settings req = none) ∧
      (selectVideoProvider settings req = none →
        ¬∃ e ∈ settings, e.isConnected = true ∧
          (e.provider = req.getD ("runway") ∨
            e.provider ∈ videoFallbackProviders)) := by
  intro settings req
  refine ⟨?_, ?_, ?_, ?_, ?_, ?_, ?_, ?_, ?_, ?_⟩
  · unfold selectImageProvider
    by_cases hfree : req.getD ("pollinations") ∈ FREE_IMAGE_PROVIDERS
    · rw [if_pos (by simpa using hfree)]
      exact Or.inl hfree
    · rw [if_neg (by simpa using hfree)]
      cases hfind : settings.find?
          (fun e => e.provider = req.getD ("pollinations") && e.isConnected) with
      | some ps =>
          have hp := List.find?_some hfind
          simp only [Bool.and_eq_true, decide_eq_true_iff] at hp
          exact Or.inr ⟨ps, List.mem_of_find?_eq_some hfind, hp.1, hp.2⟩
      | none =>
          cases hfb : settings.find?
              (fun e => imageFallbackProviders.contains e.provider &&
                e.isConnected) with
          | some fs =>
              have hp := List.find?_some hfb
              simp only [Bool.and_eq_true] at hp
              exact Or.inr ⟨fs, List.mem_of_find?_eq_some hfb, rfl, hp.2⟩
          | none =>
              exact Or.inl (by simp [FREE_IMAGE_PROVIDERS])
  · intro hfree
    unfold selectImageProvider
    rw [if_pos (by simpa using hfree)]
  · intro hfree l1 e l2 hsplit hprov hconn hl1
    have hfind : settings.find?
        (fun x => x.provider = req.getD ("pollinations") && x.isConnected) =
        some e := by
      rw [hsplit]
      refine find_append_first _ _ _ _ ?_ (by simp [hprov, hconn])
      intro x hx
      have h := hl1 x hx
      cases hc : x.isConnected with
      | false => simp
      | true =>
          by_cases hp : x.provider = req.getD ("pollinations")
          · exact absurd ⟨hp, hc⟩ h
          · simp [hp]
    unfold selectImageProvider
    rw [if_neg (by simpa using hfree), hfind]
  · intro hfree hnoreq l1 e l2 hsplit hmem hconn hl1
    have hfind1 : settings.find?
        (fun x => x.provider = req.getD ("pollinations") && x.isConnected) =
        none := by
      refine List.find?_eq_none.2 ?_
      intro x hx
      have h := hnoreq x hx
      simp only [Bool.and_eq_true, decide_eq_true_iff]
      exact h
    have hfind2 : settings.find?
        (fun x => imageFallbackProviders.contains x.provider &&
          x.isConnected) = some e := by
      rw [hsplit]
      refine find_append_first _ _ _ _ ?_ ?_
      · intro x hx
        have h := hl1 x hx
        cases hc : x.isConnected with
        | false => simp
        | true =>
            by_cases hp : x.provider ∈ imageFallbackProviders
            · exact absurd ⟨hp, hc⟩ h
            · simp [hp]
      · simp [hmem, hconn]
    unfold selectImageProvider
    rw [if_neg (by simpa using hfree), hfind1, hfind2]
  · intro hfree hnoreq hnofb
    have hfind1 : settings.find?
        (fun x => x.provider = req.getD ("pollinations") && x.isConnected) =
        none := by
      refine List.find?_eq_none.2 ?_
      intro x hx
      have h := hnoreq x hx
      simp only [Bool.and_eq_true, decide_eq_true_iff]
      exact h
    have hfind2 : settings.find?
        (fun x => imageFallbackProviders.contains x.provider &&
          x.isConnected) = none := by
      refine List.find?_eq_none.2 ?_
      intro x hx
      have h := hnofb x hx
      simp only [Bool.and_eq_true]
      intro hcon
      exact h ⟨(contains_true_iff _ _).1 hcon.1, hcon.2⟩
    unfold selectImageProvider
    rw [if_neg (by simpa using hfree), hfind1, hfind2]
  · intro sel hsel
    simp only [selectVideoProvider] at hsel
    cases hfind : settings.find?
        (fun e => e.provider = req.getD ("runway") && e.isConnected) with
    | some ps =>
        rw [hfind] at hsel
        have hp := List.find?_some hfind
        simp only [Bool.and_eq_true, decide_eq_true_iff] at hp
        rw [Option.some.injEq] at hsel
        refine ⟨ps, List.mem_of_find?_eq_some hfind, ?_, hp.2⟩
        rw [← hsel]
        exact hp.1
    | none =>
        rw [hfind] at hsel
        cases hfb : settings.find?
            (fun e => videoFallbackProviders.contains e.provider &&
              e.isConnected) with
        | some fs =>
            rw [hfb, Option.some.injEq] at hsel
            have hp := List.find?_some hfb
            simp only [Bool.and_eq_true] at hp
            refine ⟨fs, List.mem_of_find?_eq_some hfb, ?_, hp.2⟩
            rw [← hsel]
        | none =>
            rw [hfb] at hsel
            exact absurd hsel (by simp)
  · intro l1 e l2 hsplit hprov hconn hl1
    have hfind : settings.find?
        (fun x => x.provider = req.getD ("runway") && x.isConnected) =
        some e := by
      rw [hsplit]
      refine find_append_first _ _ _ _ ?_ (by simp [hprov, hconn])
      intro x hx
      have h := hl1 x hx
      cases hc : x.isConnected with
      | false => simp
      | true =>
          by_cases hp : x.provider = req.getD ("runway")
          · exact absurd ⟨hp, hc⟩ h
          · simp [hp]
    simp only [selectVideoProvider]
    rw [hfind]
  · intro hnoreq l1 e l2 hsplit hmem hconn hl1
    have hfind1 : settings.find?
        (fun x => x.provider = req.getD ("runway") && x.isConnected) =
        none := by
      refine List.find?_eq_none.2 ?_
      intro x hx
      have h := hnoreq x hx
      simp only [Bool.and_eq_true, decide_eq_true_iff]
      exact h
    have hfind2 : settings.find?
        (fun x => videoFallbackProviders.contains x.provider &&
          x.isConnected) = some e := by
      rw [hsplit]
      refine find_append_first _ _ _ _ ?_ ?_
      · intro x hx
        have h := hl1 x hx
        cases hc : x.isConnected with
        | false => simp
        | true =>
            by_cases hp : x.provider ∈ videoFallbackProviders
            · exact absurd ⟨hp, hc⟩ h
            · simp [hp]
      · simp [hmem, hconn]
    simp only [selectVideoProvider]
    rw [hfind1, hfind2]
  · intro hnoreq hnofb
    have hfind1 : settings.find?
        (fun x => x.provider = req.getD ("runway") && x.isConnected) =
        none := by
      refine List.find?_eq_none.2 ?_
      intro x hx
      have h := hnoreq x hx
      simp only [Bool.and_eq_true, decide_eq_true_iff]
      exact h
    have hfind2 : settings.find?
        (fun x => videoFallbackProviders.contains x.provider &&
          x.isConnected) = none := by
      refine List.find?_eq_none.2 ?_
      intro x hx
      have h := hnofb x hx
      simp only [Bool.and_eq_true]
      intro hcon
      exact h ⟨(contains_true_iff _ _).1 hcon.1, hcon.2⟩
    simp only [selectVideoProvider]
    rw [hfind1, hfind2]
  · intro hnone
    simp only [selectVideoProvider] at hnone
    rintro ⟨e, hmem, hconn, hor⟩
    cases hfind : settings.find?
        (fun e => e.provider = req.getD ("runway") && e.isConnected) with
    | some ps =>
        rw [hfind] at hnone
        exact absurd hnone (by simp)
    | none =>
        rw [hfind] at hnone
        cases hfb : settings.find?
            (fun e => videoFallbackProviders.contains e.provider &&
              e.isConnected) with
        | some fs =>
            rw [hfb] at hnone
            exact absurd hnone (by simp)
        | none =>
            rcases hor with h | h
            · have := List.find?_eq_none.1 hfind e hmem
              simp [h, hconn] at this
            · have := List.find?_eq_none.1 hfb e hmem
              simp [h, hconn] at this

/-- Settings of the C2 witness: a stability key is stored but not
connected, and a gemini key is connected; gemini comes sixth in the fixed
fallback list but first among connected settings in insertion order. -/
def c2WSettings : List APISetting :=
  [{ id := 0, provider := "stability", apiKey := "sk-stab-old",
     isConnected := false },
   { id := 1, provider := "gemini", apiKey := "sk-gem-1",
     isConnected := true }]

/-- Witness for C2 amended: requesting the unconnected stability provider
selects gemini, the first connected key-based setting in insertion order;
and with no connected video setting the video selection is empty. -/
theorem provider_selection_characterized_witness :
    selectImageProvider c2WSettings (some ("stability")) =
      ("gemini", "sk-gem-1") ∧
    selectVideoProvider c2WSettings (some ("runway")) = none := by
  constructor
  · exact (provider_selection_characterized c2WSettings
      (some ("stability"))).2.2.2.1 (by decide) (by decide)
      [{ id := 0, provider := "stability", apiKey := "sk-stab-old",
         isConnected := false }]
      { id := 1, provider := "gemini", apiKey := "sk-gem-1",
        isConnected := true }
      [] rfl (by decide) rfl (by decide)
  · exact (provider_selection_characterized c2WSettings
      (some ("runway"))).2.2.2.2.2.2.2.2.1 (by decide) (by decide)

/-- State of the C3 counterexample: one connected provider. -/
def c3St : ServerState :=
  { store := { emptyStorage with apiSettings :=
      [(0, { id := 0, provider := "stability", apiKey := "sk-stab-key-12345",
             isConnected := true })] },
    jobs := [] }

/-- Request of the C3 counterexample. -/
def c3Req : GenRequest :=
  { prompt := "a bird", provider := some ("stability"), tileId := 9,
    referenceImageUrl := none }

/-- Oracle of the C3 counterexample: the vendor answers with a rate-limit
error. -/
def c3Gen : String → String → GenerationResult := fun p _ =>
  if p = "stability" then
    { success := false, mediaUrl := none,
      error := some ("Stability API error: 429 rate limited"), jobId := none }
  else
    { success := true, mediaUrl := some ("https://images.example/bird.png"),
      error := none, jobId := none }

/-- C3 counterexample: after a rate-limited failure the stored provider
record is completely unchanged (no status, no failure timestamp) and an
immediately repeated request selects and calls the same provider again —
there is no 60-second block and no three-state status. -/
theorem no_cooldown_cex :
    (handleGenerateImage c3St c3Req c3Gen).1 =
      GenResponse.failure (some ("Stability API error: 429 rate limited"))
        "stability" ∧
    (handleGenerateImage c3St c3Req c3Gen).2 = c3St ∧
    selectImageProvider
      (getApiSettings (handleGenerateImage c3St c3Req c3Gen).2.store)
      c3Req.provider = ("stability", "sk-stab-key-12345") ∧
    (handleGenerateImage (handleGenerateImage c3St c3Req c3Gen).2 c3Req
      c3Gen).1 =
      GenResponse.failure (some ("Stability API error: 429 rate limited"))
        "stability" := by
  decide

theorem genResponseOf_store (st : ServerState) (tileId : Nat)
    (provider : String) (type : MediaType) (m1 m2 : String)
    (res : GenerationResult) :
    (genResponseOf st tileId provider type m1 m2 res).2.store = st.store := by
  unfold genResponseOf
  split_ifs <;> rfl

/-- C3 amended: the server keeps no per-provider status beyond the stored
`isConnected` boolean: generation requests never modify the settings store
(no failure state or timestamp is recorded), so provider eligibility after
any failed call is identical to before it — every connected or free
provider is always immediately retriable. -/
theorem generation_tracks_no_status (st : ServerState) (req : GenRequest)
    (gen : String → String → GenerationResult) :
    (handleGenerateImage st req gen).2.store = st.store ∧
    (handleGenerateVideo st req gen).2.store = st.store ∧
    selectImageProvider
      (getApiSettings (handleGenerateImage st req gen).2.store) req.provider =
      selectImageProvider (getApiSettings st.store) req.provider ∧
    selectVideoProvider
      (getApiSettings (handleGenerateVideo st req gen).2.store) req.provider =
      selectVideoProvider (getApiSettings st.store) req.provider := by
  have h1 : (handleGenerateImage st req gen).2.store = st.store := by
    show (genResponseOf st req.tileId _ _ _ _ _).2.store = st.store
    exact genResponseOf_store _ _ _ _ _ _ _
  have h2 : (handleGenerateVideo st req gen).2.store = st.store := by
    unfold handleGenerateVideo
    cases hsel : selectVideoProvider (getApiSettings st.store) req.provider with
    | none => rfl
    | some sel => exact genResponseOf_store _ _ _ _ _ _ _
  exact ⟨h1, h2, by rw [h1], by rw [h2]⟩

/-- Store of the C6 counterexample: one tile referencing the nonexistent
timeline 77 (foreign keys are not enforced). -/
def c6S : Storage := (createTile (tiIns 77) emptyStorage).2

/-- C6 counterexample: DELETE of a missing timeline id returns 404 but
still cascade-deletes the dangling tile, so the storage is not left
unchanged. -/
theorem missing_id_mutates_cex :
    getTimeline 77 c6S = none ∧
    (handleDeleteTimeline 77 c6S).1 =
      RestResponse.notFound ("Timeline not found") ∧
    c6S.tiles ≠ [] ∧
    (handleDeleteTimeline 77 c6S).2.tiles = [] := by
  decide

/-- C6 amended: a request whose id names no record answers 404 with a JSON
error body and leaves the store unchanged — except that DELETE on
timelines and tiles still removes dangling records referencing the missing
id; when no stored record references it, those two also leave the store
unchanged. -/
theorem missing_id_notFound (s : Storage) (id : Nat) (hr : Reachable s)
    (ptl : TimelinePatch) (pti : TilePatch) (pat : AudioTrackPatch)
    (pac : AudioClipPatch) (pst : APISettingPatch) (vr : ValidationResp) :
    (getTimeline id s = none →
      handleGetTimeline id s =
        (RestResponse.notFound ("Timeline not found"), s) ∧
      handlePatchTimeline id ptl s =
        (RestResponse.notFound ("Timeline not found"), s) ∧
      ((∀ e ∈ s.tiles, e.2.timelineId ≠ id) →
       (∀ e ∈ s.tileLinks, e.2.timelineId ≠ id) →
       (∀ e ∈ s.linkedSegments, e.2.timelineId ≠ id) →
        handleDeleteTimeline id s =
          (RestResponse.notFound ("Timeline not found"), s))) ∧
    (getTile id s = none →
      handleGetTile id s = (RestResponse.notFound ("Tile not found"), s) ∧
      handlePatchTile id pti s =
        (RestResponse.notFound ("Tile not found"), s) ∧
      ((∀ e ∈ s.tileLinks, e.2.tileId ≠ id) →
        handleDeleteTile id s =
          (RestResponse.notFound ("Tile not found"), s))) ∧
    (getTileLink id s = none →
      handleDeleteTileLink id s =
        (RestResponse.notFound ("Tile link not found"), s)) ∧
    (getLinkedSegment id s = none →
      handleDeleteLinkedSegment id s =
        (RestResponse.notFound ("Linked segment not found"), s)) ∧
    (getAudioTrack id s = none →
      handleGetAudioTrack id s =
        (RestResponse.notFound ("Audio track not found"), s) ∧
      handlePatchAudioTrack id pat s =
        (RestResponse.notFound ("Audio track not found"), s) ∧
      handleDeleteAudioTrack id s =
        (RestResponse.notFound ("Audio track not found"), s)) ∧
    (getAudioClip id s = none →
      handleGetAudioClip id s =
        (RestResponse.notFound ("Audio clip not found"), s) ∧
      handlePatchAudioClip id pac s =
        (RestResponse.notFound ("Audio clip not found"), s) ∧
      handleDeleteAudioClip id s =
        (RestResponse.notFound ("Audio clip not found"), s)) ∧
    (getApiSettingById id s = none →
      handlePatchApiSetting id pst s vr =
        (RestResponse.notFound ("Setting not found"), s) ∧
      handleDeleteApiSetting id s =
        (RestResponse.notFound ("Setting not found"), s)) := by
  have inv := storeInv_of_reachable hr
  refine ⟨?_, ?_, ?_, ?_, ?_, ?_, ?_⟩
  · intro hget
    have hget' : mapGet id s.timelines = none := hget
    have hid : id ∉ mapKeys s.timelines := (mapGet_eq_none_iff _ _).1 hget'
    refine ⟨by simp [handleGetTimeline, getTimeline, hget'],
      by simp [handlePatchTimeline, updateTimeline, hget'], ?_⟩
    intro h1 h2 h3
    have hfil1 : (mapValues s.tiles).filter (fun t => t.timelineId = id) = [] := by
      rw [List.filter_eq_nil_iff]
      intro t ht
      obtain ⟨e, he, rfl⟩ := List.mem_map.1 ht
      simpa using h1 e he
    have hfil2 : (mapValues s.tileLinks).filter
        (fun l => l.timelineId = id) = [] := by
      rw [List.filter_eq_nil_iff]
      intro t ht
      obtain ⟨e, he, rfl⟩ := List.mem_map.1 ht
      simpa using h2 e he
    have hfil3 : (mapValues s.linkedSegments).filter
        (fun g => g.timelineId = id) = [] := by
      rw [List.filter_eq_nil_iff]
      intro t ht
      obtain ⟨e, he, rfl⟩ := List.mem_map.1 ht
      simpa using h3 e he
    have hre : reindexLinkedSegments s.linkedSegments = s.linkedSegments :=
      reindex_eq_self _ inv.segOrders
    have hdel : mapDelete id s.timelines = (s.timelines, false) :=
      mapDelete_of_not_mem hid
    simp only [handleDeleteTimeline, deleteTimeline, hfil1, hfil2, hfil3,
      List.foldl_nil, hre, hdel]
    rfl
  · intro hget
    have hget' : mapGet id s.tiles = none := hget
    have hid : id ∉ mapKeys s.tiles := (mapGet_eq_none_iff _ _).1 hget'
    refine ⟨by simp [handleGetTile, getTile, hget'],
      by simp [handlePatchTile, updateTile, hget'], ?_⟩
    intro h1
    have hfil1 : (mapValues s.tileLinks).filter (fun l => l.tileId = id) = [] := by
      rw [List.filter_eq_nil_iff]
      intro t ht
      obtain ⟨e, he, rfl⟩ := List.mem_map.1 ht
      simpa using h1 e he
    have hdel : mapDelete id s.tiles = (s.tiles, false) :=
      mapDelete_of_not_mem hid
    simp only [handleDeleteTile, deleteTile, hget', hfil1, List.foldl_nil, hdel]
    rfl
  · intro hget
    have hget' : mapGet id s.tileLinks = none := hget
    have hid : id ∉ mapKeys s.tileLinks := (mapGet_eq_none_iff _ _).1 hget'
    have hdel : mapDelete id s.tileLinks = (s.tileLinks, false) :=
      mapDelete_of_not_mem hid
    simp only [handleDeleteTileLink, deleteTileLink, hdel]
    rfl
  · intro hget
    have hget' : mapGet id s.linkedSegments = none := hget
    have hid : id ∉ mapKeys s.linkedSegments := (mapGet_eq_none_iff _ _).1 hget'
    have hdel : mapDelete id s.linkedSegments = (s.linkedSegments, false) :=
      mapDelete_of_not_mem hid
    have hre : reindexLinkedSegments s.linkedSegments = s.linkedSegments :=
      reindex_eq_self _ inv.segOrders
    simp only [handleDeleteLinkedSegment, deleteLinkedSegment, hdel, hre]
    rfl
  · intro hget
    have hget' : mapGet id s.audioTracks = none := hget
    have hid : id ∉ mapKeys s.audioTracks := (mapGet_eq_none_iff _ _).1 hget'
    have hdel : mapDelete id s.audioTracks = (s.audioTracks, false) :=
      mapDelete_of_not_mem hid
    exact ⟨by simp [handleGetAudioTrack, getAudioTrack, hget'],
      by simp [handlePatchAudioTrack, updateAudioTrack, hget'],
      by simp [handleDeleteAudioTrack, deleteAudioTrack, hdel]⟩
  · intro hget
    have hget' : mapGet id s.audioClips = none := hget
    have hid : id ∉ mapKeys s.audioClips := (mapGet_eq_none_iff _ _).1 hget'
    have hdel : mapDelete id s.audioClips = (s.audioClips, false) :=
      mapDelete_of_not_mem hid
    exact ⟨by simp [handleGetAudioClip, getAudioClip, hget'],
      by simp [handlePatchAudioClip, updateAudioClip, hget'],
      by simp [handleDeleteAudioClip, deleteAudioClip, hdel]⟩
  · intro hget
    have hget' : mapGet id s.apiSettings = none := hget
    have hid : id ∉ mapKeys s.apiSettings := (mapGet_eq_none_iff _ _).1 hget'
    have hdel : mapDelete id s.apiSettings = (s.apiSettings, false) :=
      mapDelete_of_not_mem hid
    refine ⟨?_, by simp [handleDeleteApiSetting, deleteApiSettingById, hdel]⟩
    simp only [handlePatchApiSetting, getApiSettingById, updateApiSetting,
      hget']
    split_ifs <;> rfl

/-- Witness for C6 amended at the empty store. -/
theorem missing_id_notFound_witness :
    Reachable emptyStorage ∧ getTimeline 5 emptyStorage = none ∧
    handleGetTimeline 5 emptyStorage =
      (RestResponse.notFound ("Timeline not found"), emptyStorage) :=
  ⟨Reachable.empty, by decide,
   ((missing_id_notFound emptyStorage 5 Reachable.empty
      ⟨none, none, none, none, none⟩
      ⟨none, none, none, none, none, none, none, none, none, none, none⟩
      ⟨none, none, none, none, none, none, none, none, none, none, none⟩
      ⟨none, none, none, none, none, none, none, none, none, none⟩
      ⟨none, none, none, none⟩
      ⟨false, 200⟩).1 (by decide)).1⟩
